import Mathlib

/-!
# ProcurePro360: budget ledger and purchase-order settlement

A shallow embedding of the budget, purchase-order and contract controllers
(`src/controllers/budgetController.js`, `src/controllers/poController.js`,
`src/controllers/contractController.js`), the transaction wrapper of
`src/utils/database.js`, the checks and the input sanitiser of
`src/utils/validation.js` and the table
constraints of `src/models/Budget.js`, `src/models/PurchaseOrder.js` and
`src/models/Contract.js`.

Modelling conventions.

* The relational store is a record of row lists.  `INSERT` appends a row,
  `UPDATE ... WHERE` maps over the rows that satisfy the condition,
  `DELETE ... WHERE` filters them out, `SELECT ... WHERE` filters and keeps
  row order.  The `UNIQUE` keys of the schema are enforced by the insert
  functions, which fail as the database would.  A table has the columns its
  controller writes; the `CREATE TABLE` statements under `src/models` give the
  keys and enumerations of the columns they declare.
* A write of a value that a column's declaration does not admit (a status outside
  the `ENUM`, a string that is no date) is refused under strict SQL mode and
  stored as the column's empty value otherwise; the mode is an input of the
  request (`Env.strict`).  The check applies to the rows the statement writes.
* Row identifiers (`UUID()` in the schema) are opaque keys.  A new key is one
  that no row carries and that was not handed out before (`Store.uuid`), so a
  primary key never collides.  The `insertId` the driver reports for an insert is
  the `AUTO_INCREMENT` value, which is 0 for a table whose key is a `UUID()`
  default.  Rows referenced through foreign keys (departments, users, vendors,
  contracts) are taken to exist.
* Money in a table (`DECIMAL(15,2)`) is an exact integer number of hundredths
  (`Amount`); the width of the column is not modelled.  A number of a request
  body is a rational number of hundredths (`NumericField`), which a
  `DECIMAL(15,2)` column rounds to the hundredth when it is assigned
  (`toDecimal`).
* A request handler is a function from the store before the request to the
  HTTP response and the store after it.  One request runs at a time.
* A key, array or string field of a request that is absent (or falsy) is
  `none`.
* The clock is the calendar year (`YEAR(CURRENT_DATE)`,
  `new Date().getFullYear()`); of a creation timestamp only the year is kept,
  since the controllers read it through `YEAR(created_at)` only.  The other
  timestamp columns (`updated_at`, `approved_at`, ...) are not modelled.
* A JavaScript string is the sequence of its Unicode characters; the two
  `replace` calls and the `trim` of `sanitizeInput` are the functions on that
  sequence that ECMAScript defines for them.
* The arithmetic of `getDepartmentBudget` is over the rationals.
* A module-level name is bound as its `require` statement binds it.  The three
  controllers bind `ValidationUtils` with
  `const { ValidationUtils } = require('../utils/validation')`, and that module
  exports the class itself (`module.exports = ValidationUtils`), which has no
  member of that name: in the controllers `ValidationUtils` is `undefined`, and
  a call of one of its methods throws a `TypeError` (`validationUtilsError`) that
  the `catch` block of the handler answers with status 500.  A handler is
  embedded as what it does up to such a statement; the statements behind it,
  which no request reaches, are left out.
* `DatabaseUtils.executeQuery` returns the result array of the query.  The
  purchase-order handlers read the member `isAvailable` of that array, which is
  `undefined`.  The stored procedure `CheckDepartmentBudget` they call, which is
  not in the repository, is taken to exist and to return.
* The notification calls of the handlers name methods that `src/utils/email.js`
  does not define (`sendPOApprovalNotification`, ...), or, for
  `sendContractRenewalNotification`, leave out the `vendor` the method reads, so
  in the repository as it is each call throws.  The outcome of the call is an
  input of the request (`Env.mailError`).
-/

namespace ProcurePro

/-! ## Data model -/

/-- Row identifiers (`VARCHAR(36)` keys in the schema). -/
abbrev Key := Nat

/-- Money in hundredths (`DECIMAL(15,2)` columns). -/
abbrev Amount := Int

/-- Column `budgets.status`: `ENUM('active', 'exhausted', 'closed')`. -/
inductive BudgetStatus where
  | active
  | exhausted
  | closed
  deriving DecidableEq, Repr

/-- A row of table `budgets` (`src/models/Budget.js`). -/
structure Budget where
  id : Key
  department_id : Key
  fiscal_year : Nat
  total_amount : Amount
  allocated_amount : Amount
  remaining_amount : Amount
  status : BudgetStatus
  notes : String
  created_by : Key
  deriving DecidableEq, Repr

/-- Column `purchase_orders.status`:
`ENUM('draft', 'pending', 'approved', 'rejected', 'completed')`. -/
inductive POStatus where
  | draft
  | pending
  | approved
  | rejected
  | completed
  deriving DecidableEq, Repr

/-- One line item of a purchase order (an element of the `items` JSON array). -/
structure Item where
  description : String
  quantity : Nat
  unit_price : Amount
  deriving DecidableEq, Repr

/-- A row of table `purchase_orders` (`src/models/PurchaseOrder.js`).
`created_at` holds the year of the creation timestamp. -/
structure PurchaseOrder where
  id : Key
  po_number : String
  vendor_id : Key
  contract_id : Option Key
  department_id : Key
  items : List Item
  total_amount : Amount
  status : POStatus
  delivery_date : String
  delivery_address : String
  special_instructions : String
  approved_by : Option Key
  approval_comments : Option String
  created_by : Key
  created_at : Nat
  deriving DecidableEq, Repr

/-- A value of column `contracts.status`.  `src/models/Contract.js` declares
`ENUM('draft', 'active', 'expired', 'terminated')`; `rejected` and `renewed` are
the two further values the contract controller writes, and `blank` is the empty
value the server stores for a value outside the enumeration when it is not in
strict mode. -/
inductive ContractStatus where
  | draft
  | active
  | expired
  | terminated
  | rejected
  | renewed
  | blank
  deriving DecidableEq, Repr

/-- A row of table `contracts` (`src/models/Contract.js`, with the columns the
controller writes).  `start_date` and `end_date` are day numbers (`DATE`),
`created_at` holds the year of the creation timestamp. -/
structure Contract where
  id : Key
  vendor_id : Key
  contract_number : String
  title : String
  description : String
  start_date : Nat
  end_date : Nat
  value : Amount
  status : ContractStatus
  terms_conditions : String
  renewal_terms : String
  created_by : Key
  created_at : Nat
  approved_by : Option Key
  approval_comments : Option String
  termination_reason : Option String
  terminated_by : Option Key
  rejected_by : Option Key
  rejection_comments : Option String
  renewed_by : Option Key
  deriving DecidableEq, Repr

/-- A row of table `audit_logs`. -/
structure AuditLog where
  event_type : String
  entity_type : String
  entity_id : Key
  description : String
  created_by : Key
  deriving DecidableEq, Repr

/-- A row of table `budget_transfers`. -/
structure BudgetTransfer where
  from_department_id : Key
  to_department_id : Key
  amount : Amount
  reason : String
  created_by : Key
  deriving DecidableEq, Repr

/-- A row of table `budget_allocations`. -/
structure BudgetAllocation where
  department_id : Key
  amount : Amount
  notes : String
  created_by : Key
  deriving DecidableEq, Repr

/-- The tables the two controllers read and write, with the largest key handed out
so far. -/
structure Store where
  budgets : List Budget
  purchase_orders : List PurchaseOrder
  audit_logs : List AuditLog
  budget_transfers : List BudgetTransfer
  budget_allocations : List BudgetAllocation
  contracts : List Contract
  lastKey : Key
  deriving DecidableEq, Repr

/-- `UUID()`: a key larger than every key in use and than every key handed out
so far. -/
def Store.uuid (s : Store) : Key :=
  (s.budgets.map (fun b => b.id) ++ s.purchase_orders.map (fun po => po.id) ++
    s.contracts.map (fun c => c.id)).foldr max s.lastKey + 1

/-- The store with no rows. -/
def Store.empty : Store :=
  { budgets := [], purchase_orders := [], audit_logs := [],
    budget_transfers := [], budget_allocations := [], contracts := [], lastKey := 0 }

/-- What a request sees besides its body and the store: the calendar year, the
authenticated user (`req.user.id`), the error the notification call throws, if
it throws, and whether the database server runs in strict SQL mode. -/
structure Env where
  year : Nat
  user : Key
  mailError : Option String
  strict : Bool
  deriving DecidableEq, Repr

/-- The `data` member of a success response. -/
inductive Payload where
  | empty
  | id (insertId : Key)
  | po (insertId : Key) (poNumber : String)
  | contract (insertId : Key) (contractNumber : String)
  deriving DecidableEq, Repr

/-- The HTTP response: the status code and the members of the JSON body
(`status`, `message`, `error`, `data`). -/
structure Response where
  code : Nat
  status : String
  message : String
  error : Option String
  data : Payload
  deriving DecidableEq, Repr

/-- Response `res.json(...)` or `res.status(201).json(...)` of a success. -/
def Response.success (code : Nat) (message : String) (data : Payload) : Response :=
  { code := code, status := "success", message := message, error := none, data := data }

/-- Response of an early `return res.status(code).json(...)` of a rejected request. -/
def Response.reject (code : Nat) (message : String) : Response :=
  { code := code, status := "error", message := message, error := none, data := Payload.empty }

/-- Response of a `catch (error)` block: status 500 with `error.message`. -/
def Response.caught (message : String) (errorMessage : String) : Response :=
  { code := 500, status := "error", message := message, error := some errorMessage,
    data := Payload.empty }

/-! ## `src/utils/validation.js` -/

/-- A value passed to `sanitizeInput`: a string, or a value of another JavaScript
type (`typeof` is not `'string'`): a number, a boolean, `null`, `undefined`, or an
object, array or function, given by its reference.  A string is a sequence of
Unicode characters. -/
inductive JsValue where
  | string (s : String)
  | number (n : Int)
  | boolean (b : Bool)
  | null
  | undefined
  | object (reference : Nat)
  deriving DecidableEq, Repr

/-- The replacement `input.replace(/<[^>]*>/g, '')` on the characters of a string,
scanning from the left.  Outside a match (`inTag = false`) a `<` starts a match
exactly when a `>` occurs later in the string, since `[^>]*` takes every character
up to the first `>`; the match is dropped up to and including that `>`
(`inTag = true`), and the scan goes on behind it.  Every other character is kept. -/
def removeHtmlTags (inTag : Bool) : List Char → List Char
  | [] => []
  | c :: cs =>
    if inTag then
      if c = '>' then removeHtmlTags false cs else removeHtmlTags true cs
    else if c = '<' ∧ '>' ∈ cs then removeHtmlTags true cs
    else c :: removeHtmlTags false cs

/-- The character class of `input.replace(/['";\\]/g, '')`: the single quote
(U+0027), the double quote (U+0022), the semicolon and the backslash (U+005C). -/
def isSqlChar (c : Char) : Bool :=
  c = '\x27' || c = '\x22' || c = ';' || c = '\x5c'

/-- The characters `String.prototype.trim` strips: the white space and line
terminator code points of ECMAScript (tab, line feed, vertical tab, form feed,
carriage return, space, no-break space, U+1680, U+2000 to U+200A, U+2028, U+2029,
U+202F, U+205F, U+3000 and U+FEFF). -/
def isWhiteSpace (c : Char) : Bool :=
  c = '\t' || c = '\n' || c = '\x0b' || c = '\x0c' || c = '\r' || c = ' '
    || c = '\u00a0' || c = '\u1680'
    || (decide (0x2000 ≤ c.toNat) && decide (c.toNat ≤ 0x200A))
    || c = '\u2028' || c = '\u2029' || c = '\u202f' || c = '\u205f' || c = '\u3000'
    || c = '\ufeff'

/-- `input.trim()`: the string without the white space at its start and at its
end. -/
def trim (input : List Char) : List Char :=
  (input.dropWhile isWhiteSpace).rdropWhile isWhiteSpace

/-- `ValidationUtils.sanitizeInput`: for a string, remove the HTML tags, then the
characters `'";\`, then trim; any other value is returned as it is. -/
def sanitizeInput (input : JsValue) : JsValue :=
  match input with
  | JsValue.string s =>
    JsValue.string
      (String.mk (trim ((removeHtmlTags false s.data).filter (fun c => !isSqlChar c))))
  | other => other

/-- A field of a request body that is meant to hold a number: absent (`undefined`
or `null`), a number, or a value of another JSON type (a string, a boolean, an
array, an object) with its JavaScript truthiness and the number the database
converts it to.  Numbers are counted in hundredths, the unit of `Amount`, and may
carry a fraction of a hundredth. -/
inductive NumericField where
  | absent
  | number (hundredths : ℚ)
  | other (truthy : Bool) (converted : ℚ)
  deriving DecidableEq, Repr

/-- The value a `DECIMAL(15,2)` column takes when a number is assigned to it: the
nearest hundredth, a half rounded away from zero. -/
def toDecimal (q : ℚ) : Amount :=
  if 0 ≤ q.num then (2 * q.num + q.den) / (2 * q.den)
  else -((2 * (-q.num) + q.den) / (2 * q.den))

/-- The `TypeError` of a call `ValidationUtils.<method>(...)` in a controller.  The
controllers bind the name with
`const { ValidationUtils } = require('../utils/validation')`, and the module
exports the class itself (`module.exports = ValidationUtils`), which has no member
named `ValidationUtils`: the name is `undefined`, and the call throws before the
method runs. -/
def validationUtilsError (method : String) : String :=
  "Cannot read properties of undefined (reading '" ++ method ++ "')"

/-- `ValidationUtils.isPositiveNumber`: `typeof num === 'number' && num > 0`. -/
def isPositiveNumber (num : NumericField) : Bool :=
  match num with
  | NumericField.number q => decide (0 < q)
  | _ => false

/-- The amount a `DECIMAL(15,2)` column holds after the field is assigned to it. -/
def amountOf (num : NumericField) : Amount :=
  match num with
  | NumericField.absent => 0
  | NumericField.number q => toDecimal q
  | NumericField.other _ converted => toDecimal converted

/-- JavaScript `!x` on an optional key field: true when the field is absent. -/
def notKey (x : Option Key) : Bool :=
  x.isNone

/-- JavaScript `!x` on a numeric field: true when the field is absent, is the
number zero, or is a falsy value of another type (a non-empty string is truthy). -/
def notAmount (x : NumericField) : Bool :=
  match x with
  | NumericField.absent => true
  | NumericField.number q => decide (q = 0)
  | NumericField.other truthy _ => !truthy

/-- JavaScript `!x` on an optional array field: true when the field is absent (an
empty array is truthy). -/
def notItems (x : Option (List Item)) : Bool :=
  x.isNone

/-- A date field of a request body: absent, a value `new Date` turns into an
invalid date, or a value that denotes an instant (milliseconds since the epoch). -/
inductive DateField where
  | absent
  | invalid
  | valid (instant : Nat)
  deriving DecidableEq, Repr

/-- `ValidationUtils.isValidDate`: `new Date(date)` is not an invalid date. -/
def isValidDate (date : DateField) : Bool :=
  match date with
  | DateField.valid _ => true
  | _ => false

/-- `ValidationUtils.isDateRange`: both dates are valid and
`new Date(startDate) < new Date(endDate)`. -/
def isDateRange (startDate : DateField) (endDate : DateField) : Bool :=
  if isValidDate startDate = false || isValidDate endDate = false then false
  else
    match startDate, endDate with
    | DateField.valid a, DateField.valid b => decide (a < b)
    | _, _ => false

/-- JavaScript truthiness of a date field: false when the field is absent. -/
def DateField.truthy (date : DateField) : Bool :=
  match date with
  | DateField.absent => false
  | _ => true

/-- The day (`DATE` value) of an instant given in milliseconds. -/
def dayOf (instant : Nat) : Nat :=
  instant / 86400000

/-! ## `src/utils/database.js` and the store operations -/

/-- `DatabaseUtils.withTransaction`: run the callback; commit its store on
success, roll back to the store at `beginTransaction` and rethrow on error. -/
def withTransaction {α : Type} (callback : Store → Except String (α × Store)) (s : Store) :
    Except String α × Store :=
  match callback s with
  | Except.ok (a, s') => (Except.ok a, s')
  | Except.error e => (Except.error e, s)

/-- A sequence of queries on a connection: it returns or throws, and either way
leaves on the connection what its statements wrote up to that point. -/
abbrev Query (α : Type) := Store → Except String α × Store

/-- `DatabaseUtils.withTransaction` over a connection that shows the writes of a
callback that throws.  `beginTransaction` marks the store `s`; when the callback
returns, `commit` keeps its writes; when it throws, `rollback` restores the store
of `beginTransaction` and the error is rethrown. -/
def DatabaseUtils.withTransaction {α : Type} (callback : Query α) (s : Store) :
    Except String α × Store :=
  match callback s with
  | (Except.ok a, c) => (Except.ok a, c)
  | (Except.error e, _) => (Except.error e, s)

/-- The notification call that follows a committed transaction. -/
def sendNotification (env : Env) : Except String Unit :=
  match env.mailError with
  | some e => Except.error e
  | none => Except.ok ()

/-- `SELECT * FROM budgets WHERE department_id = ? AND fiscal_year = ?`. -/
def selectBudgets (s : Store) (department_id : Key) (fiscal_year : Nat) : List Budget :=
  s.budgets.filter (fun b => b.department_id = department_id ∧ b.fiscal_year = fiscal_year)

/-- The envelope of a department and fiscal year: the first row the select
returns (`rows[0]`). -/
def envelope (s : Store) (department_id : Key) (fiscal_year : Nat) : Option Budget :=
  (selectBudgets s department_id fiscal_year).head?

/-- `UPDATE budgets SET ... WHERE department_id = ? AND fiscal_year = ?`. -/
def updateBudgetsOf (s : Store) (department_id : Key) (fiscal_year : Nat)
    (f : Budget → Budget) : Store :=
  { s with budgets := s.budgets.map (fun b =>
      if b.department_id = department_id ∧ b.fiscal_year = fiscal_year then f b else b) }

/-- `INSERT INTO audit_logs (event_type, entity_type, entity_id, description, created_by)`. -/
def insertAuditLog (s : Store) (event_type : String) (entity_type : String) (entity_id : Key)
    (description : String) (created_by : Key) : Store :=
  { s with
    audit_logs := s.audit_logs ++ [
      { event_type := event_type, entity_type := entity_type, entity_id := entity_id,
        description := description, created_by := created_by }] }

/-- `INSERT INTO purchase_orders (...)`, with the `UNIQUE` constraint on
`po_number`; `created_at` defaults to the current timestamp and the key of the new
row to a fresh identifier.  The `insertId` of the result is 0, the table having no
`AUTO_INCREMENT` column. -/
def insertPurchaseOrder (s : Store) (year : Nat) (po_number : String) (vendor_id : Key)
    (contract_id : Option Key) (department_id : Key) (items : List Item) (total_amount : Amount)
    (status : POStatus) (delivery_date : String) (delivery_address : String)
    (special_instructions : String) (created_by : Key) : Except String (Key × Store) :=
  if s.purchase_orders.any (fun po => po.po_number = po_number) then
    Except.error "Duplicate entry for key 'po_number'"
  else
    Except.ok (0,
      { s with
        purchase_orders := s.purchase_orders ++ [
          { id := s.uuid, po_number := po_number,
            vendor_id := vendor_id, contract_id := contract_id, department_id := department_id,
            items := items, total_amount := total_amount, status := status,
            delivery_date := delivery_date, delivery_address := delivery_address,
            special_instructions := special_instructions, approved_by := none,
            approval_comments := none, created_by := created_by, created_at := year }],
        lastKey := s.uuid })

/-- `SELECT * FROM purchase_orders WHERE id = ?`. -/
def selectPurchaseOrders (s : Store) (id : Key) : List PurchaseOrder :=
  s.purchase_orders.filter (fun po => po.id = id)

/-- `DELETE FROM purchase_orders WHERE id = ?`. -/
def deletePurchaseOrderRow (s : Store) (id : Key) : Store :=
  { s with purchase_orders := s.purchase_orders.filter (fun po => ¬ po.id = id) }

/-- `DELETE FROM budgets WHERE id = ?`. -/
def deleteBudgetRow (s : Store) (id : Key) : Store :=
  { s with budgets := s.budgets.filter (fun b => ¬ b.id = id) }

/-- Whether the `ENUM` of `contracts.status` in `src/models/Contract.js` admits the
value. -/
def ContractStatus.inEnum (v : ContractStatus) : Bool :=
  match v with
  | ContractStatus.draft => true
  | ContractStatus.active => true
  | ContractStatus.expired => true
  | ContractStatus.terminated => true
  | _ => false

/-- The value the server stores for a status written outside strict mode. -/
def storedStatus (v : ContractStatus) : ContractStatus :=
  if v.inEnum then v else ContractStatus.blank

/-- `UPDATE contracts SET status = ?, ... WHERE id = ?`: `f` writes the other
columns of the statement.  In strict mode a row cannot take a status outside the
enumeration. -/
def updateContractStatus (env : Env) (s : Store) (id : Key) (status : ContractStatus)
    (f : Contract → Contract) : Except String Store :=
  if (s.contracts.any (fun c => c.id = id) && env.strict && !status.inEnum) = true then
    Except.error "Data truncated for column 'status' at row 1"
  else
    Except.ok { s with
      contracts := s.contracts.map (fun c =>
        if c.id = id then { f c with status := storedStatus status } else c) }

/-- `DELETE FROM contracts WHERE id = ?`. -/
def deleteContractRow (s : Store) (id : Key) : Store :=
  { s with contracts := s.contracts.filter (fun c => ¬ c.id = id) }

/-- `UPDATE purchase_orders SET status = ?, ... WHERE id = ?`: `f` writes the
columns of the statement. -/
def updatePurchaseOrderById (s : Store) (id : Key) (f : PurchaseOrder → PurchaseOrder) :
    Store :=
  { s with purchase_orders := s.purchase_orders.map (fun po => if po.id = id then f po else po) }

/-! ## `src/controllers/budgetController.js` -/

/-- Body of `POST /budgets`. -/
structure CreateBudgetBody where
  department_id : Key
  fiscal_year : Nat
  total_amount : NumericField
  notes : String
  deriving DecidableEq, Repr

/-- `BudgetController.createBudget`.  The first statement of the `try` block is
`if (!ValidationUtils.isPositiveNumber(total_amount))`; in this controller
`ValidationUtils` is `undefined`, the call throws, and the `catch` block answers
500 `Error creating budget` with the message of the error.  No query runs, for
any body: neither the branch that answers 400 `Invalid budget amount` nor the
transaction behind it is reached. -/
def createBudget (_env : Env) (_body : CreateBudgetBody) (s : Store) : Response × Store :=
  (Response.caught "Error creating budget" (validationUtilsError "isPositiveNumber"), s)

/-- Body of `POST /budgets/transfer`. -/
structure TransferBody where
  from_department_id : Key
  to_department_id : Key
  amount : NumericField
  reason : String
  deriving DecidableEq, Repr

/-- `BudgetController.transferBudget`.  The first statement of the `try` block is
`if (!ValidationUtils.isPositiveNumber(amount))`; the call throws on the
`undefined` `ValidationUtils` and the `catch` block answers 500
`Error transferring budget`.  No query runs, for any body. -/
def transferBudget (_env : Env) (_body : TransferBody) (s : Store) : Response × Store :=
  (Response.caught "Error transferring budget" (validationUtilsError "isPositiveNumber"), s)

/-- Body of `PUT /budgets/:id`. -/
structure UpdateBudgetBody where
  total_amount : NumericField
  notes : String
  deriving DecidableEq, Repr

/-- `BudgetController.updateBudget`.  The first statement of the `try` block is
`if (!ValidationUtils.isPositiveNumber(total_amount))`; the call throws on the
`undefined` `ValidationUtils` and the `catch` block answers 500
`Error updating budget`.  No query runs, for any body. -/
def updateBudget (_env : Env) (_id : Key) (_body : UpdateBudgetBody) (s : Store) :
    Response × Store :=
  (Response.caught "Error updating budget" (validationUtilsError "isPositiveNumber"), s)

/-- The transaction callback of `deleteBudget`. -/
def deleteBudgetTx (env : Env) (id : Key) (connection : Store) : Except String (Key × Store) :=
  let c1 := deleteBudgetRow connection id
  Except.ok (0,
    insertAuditLog c1 "BUDGET_DELETION" "budget" id
      ("Budget deleted for department " ++ toString id) env.user)

/-- `BudgetController.deleteBudget`. -/
def deleteBudget (env : Env) (id : Key) (s : Store) : Response × Store :=
  match withTransaction (deleteBudgetTx env id) s with
  | (Except.error e, s') => (Response.caught "Error deleting budget" e, s')
  | (Except.ok insertId, s') =>
    (Response.success 200 "Budget deleted successfully" (Payload.id insertId), s')

/-- Body of `POST /budgets/allocate`. -/
structure AllocateBody where
  department_id : Key
  amount : NumericField
  notes : String
  deriving DecidableEq, Repr

/-- `BudgetController.allocateBudget`.  The first statement of the `try` block is
`if (!ValidationUtils.isPositiveNumber(amount))`; the call throws on the
`undefined` `ValidationUtils` and the `catch` block answers 500
`Error allocating budget`.  No query runs, for any body. -/
def allocateBudget (_env : Env) (_body : AllocateBody) (s : Store) : Response × Store :=
  (Response.caught "Error allocating budget" (validationUtilsError "isPositiveNumber"), s)

/-- The `utilization_percentage` of `getDepartmentBudget`:
`((budget.total_amount - budget.remaining_amount) / budget.total_amount) * 100`,
over the rationals. -/
def utilization_percentage (budget : Budget) : ℚ :=
  (((budget.total_amount : ℚ) - (budget.remaining_amount : ℚ)) / (budget.total_amount : ℚ)) * 100

/-- `BudgetController.getDepartmentBudget`: the first row of the department and
fiscal year with its `utilization_percentage`; `none` is the answer 404
`Budget not found`. -/
def getDepartmentBudget (s : Store) (department_id : Key) (fiscal_year : Nat) :
    Option (Budget × ℚ) :=
  match envelope s department_id fiscal_year with
  | none => none
  | some budget => some (budget, utilization_percentage budget)

/-! ## `src/controllers/poController.js` -/

/-- JavaScript `str.padStart(targetLength, padChar)` for a one-character pad. -/
def padStart (str : String) (targetLength : Nat) (padChar : Char) : String :=
  String.mk (List.replicate (targetLength - str.length) padChar) ++ str

/-- `PurchaseOrderController.generatePONumber`: the number of purchase orders
created in the current year, plus one, formatted as `PO-<year>-<count>` with the
count padded to five places. -/
def generatePONumber (connection : Store) (year : Nat) : String :=
  let count := (connection.purchase_orders.filter (fun po => po.created_at = year)).length + 1
  "PO-" ++ toString year ++ "-" ++ padStart (toString count) 5 '0'

/-- Body of `POST /purchase-orders` and of `PUT /purchase-orders/:id`. -/
structure PurchaseOrderBody where
  vendor_id : Option Key
  contract_id : Option Key
  department_id : Option Key
  items : Option (List Item)
  total_amount : NumericField
  delivery_date : String
  delivery_address : String
  special_instructions : String
  deriving DecidableEq, Repr

/-- The key carried by a key field. -/
def keyOf (x : Option Key) : Key :=
  x.getD 0

/-- The array carried by the `items` field. -/
def itemsOf (x : Option (List Item)) : List Item :=
  x.getD []

/-- The callback `createPurchaseOrder` hands to `withTransaction`
(`poController.js`, lines 44 to 81), statement by statement.
`faults n` is the error the database raises at statement `n` of the callback, if
it fails there (0: the count of `generatePONumber`, 1: the insert of the order,
2: the update of the envelope, 3: the insert of the audit entry). -/
def createPurchaseOrderQueries (faults : Nat → Option String) (env : Env)
    (body : PurchaseOrderBody) : Query (Key × String) :=
  fun connection =>
    match faults 0 with
    | some e => (Except.error e, connection)
    | none =>
      let poNumber := generatePONumber connection env.year
      match faults 1 with
      | some e => (Except.error e, connection)
      | none =>
        match insertPurchaseOrder connection env.year poNumber (keyOf body.vendor_id)
            body.contract_id (keyOf body.department_id) (itemsOf body.items)
            (amountOf body.total_amount) POStatus.draft body.delivery_date
            body.delivery_address body.special_instructions env.user with
        | Except.error e => (Except.error e, connection)
        | Except.ok (insertId, c1) =>
          match faults 2 with
          | some e => (Except.error e, c1)
          | none =>
            let c2 := updateBudgetsOf c1 (keyOf body.department_id) env.year
              (fun b => { b with
                allocated_amount := b.allocated_amount + amountOf body.total_amount,
                remaining_amount := b.remaining_amount - amountOf body.total_amount })
            match faults 3 with
            | some e => (Except.error e, c2)
            | none =>
              (Except.ok (insertId, poNumber),
                insertAuditLog c2 "PO_CREATION" "purchase_order" insertId
                  ("Purchase Order " ++ poNumber ++ " created") env.user)

/-- `PurchaseOrderController.createPurchaseOrder`.  After the test for missing
fields the handler runs
`const budgetCheck = await DatabaseUtils.executeQuery('CALL CheckDepartmentBudget(?, ?)', ...)`
and tests `!budgetCheck.isAvailable`.  `executeQuery` returns the result array of
the query, and an array has no member `isAvailable`: the test is `!undefined`,
true for every request, and the handler answers 400
`Insufficient budget for this purchase order` whatever the envelope holds.  The
transaction behind the test is not reached. -/
def createPurchaseOrder (_env : Env) (body : PurchaseOrderBody) (s : Store) :
    Response × Store :=
  if notKey body.vendor_id || notKey body.department_id || notItems body.items
      || notAmount body.total_amount then
    (Response.reject 400 "Missing required fields", s)
  else
    (Response.reject 400 "Insufficient budget for this purchase order", s)

/-- `PurchaseOrderController.updatePurchaseOrder`.  As in `createPurchaseOrder`, the
test `!budgetCheck.isAvailable` reads a member the result array of `executeQuery`
does not have and is true for every request: the handler answers 400
`Insufficient budget for this purchase order`, and neither the `UPDATE` of the
order nor the audit entry behind the test is reached. -/
def updatePurchaseOrder (_env : Env) (_id : Key) (body : PurchaseOrderBody) (s : Store) :
    Response × Store :=
  if notKey body.vendor_id || notKey body.department_id || notItems body.items
      || notAmount body.total_amount then
    (Response.reject 400 "Missing required fields", s)
  else
    (Response.reject 400 "Insufficient budget for this purchase order", s)

/-- The transaction callback of `deletePurchaseOrder`, for the row `po` read
before the transaction. -/
def deletePurchaseOrderTx (env : Env) (id : Key) (po : PurchaseOrder) (connection : Store) :
    Except String (Unit × Store) :=
  let c1 := deletePurchaseOrderRow connection id
  let c2 := updateBudgetsOf c1 po.department_id env.year
    (fun b => { b with
      allocated_amount := b.allocated_amount - po.total_amount,
      remaining_amount := b.remaining_amount + po.total_amount })
  Except.ok ((), insertAuditLog c2 "PO_DELETION" "purchase_order" id "Purchase Order deleted"
    env.user)

/-- `PurchaseOrderController.deletePurchaseOrder`. -/
def deletePurchaseOrder (env : Env) (id : Key) (s : Store) : Response × Store :=
  match (selectPurchaseOrders s id).head? with
  | none => (Response.reject 404 "Purchase Order not found", s)
  | some po =>
    match withTransaction (deletePurchaseOrderTx env id po) s with
    | (Except.error e, s') => (Response.caught "Error deleting purchase order" e, s')
    | (Except.ok _, s') =>
      (Response.success 200 "Purchase Order deleted successfully" Payload.empty, s')

/-- The transaction callback of `approvePurchaseOrder`. -/
def approvePurchaseOrderTx (env : Env) (id : Key) (comments : String) (connection : Store) :
    Except String (Unit × Store) :=
  let c1 := updatePurchaseOrderById connection id
    (fun po => { po with
      status := POStatus.approved, approved_by := some env.user,
      approval_comments := some comments })
  Except.ok ((), insertAuditLog c1 "PO_APPROVAL" "purchase_order" id "Purchase Order approved"
    env.user)

/-- `PurchaseOrderController.approvePurchaseOrder`. -/
def approvePurchaseOrder (env : Env) (id : Key) (comments : String) (s : Store) :
    Response × Store :=
  match withTransaction (approvePurchaseOrderTx env id comments) s with
  | (Except.error e, s') => (Response.caught "Error approving purchase order" e, s')
  | (Except.ok _, s') =>
    match sendNotification env with
    | Except.error e => (Response.caught "Error approving purchase order" e, s')
    | Except.ok _ =>
      (Response.success 200 "Purchase Order approved successfully" Payload.empty, s')

/-- The transaction callback of `rejectPurchaseOrder`. -/
def rejectPurchaseOrderTx (env : Env) (id : Key) (comments : String) (connection : Store) :
    Except String (Unit × Store) :=
  let c1 := updatePurchaseOrderById connection id
    (fun po => { po with
      status := POStatus.rejected, approved_by := some env.user,
      approval_comments := some comments })
  Except.ok ((), insertAuditLog c1 "PO_REJECTION" "purchase_order" id "Purchase Order rejected"
    env.user)

/-- `PurchaseOrderController.rejectPurchaseOrder`. -/
def rejectPurchaseOrder (env : Env) (id : Key) (comments : String) (s : Store) :
    Response × Store :=
  match withTransaction (rejectPurchaseOrderTx env id comments) s with
  | (Except.error e, s') => (Response.caught "Error rejecting purchase order" e, s')
  | (Except.ok _, s') =>
    match sendNotification env with
    | Except.error e => (Response.caught "Error rejecting purchase order" e, s')
    | Except.ok _ =>
      (Response.success 200 "Purchase Order rejected successfully" Payload.empty, s')

/-- The transaction callback of `completePurchaseOrder`. -/
def completePurchaseOrderTx (env : Env) (id : Key) (connection : Store) :
    Except String (Unit × Store) :=
  let c1 := updatePurchaseOrderById connection id
    (fun po => { po with status := POStatus.completed })
  Except.ok ((), insertAuditLog c1 "PO_COMPLETION" "purchase_order" id
    "Purchase Order completed" env.user)

/-- `PurchaseOrderController.completePurchaseOrder`. -/
def completePurchaseOrder (env : Env) (id : Key) (s : Store) : Response × Store :=
  match withTransaction (completePurchaseOrderTx env id) s with
  | (Except.error e, s') => (Response.caught "Error completing purchase order" e, s')
  | (Except.ok _, s') =>
    match sendNotification env with
    | Except.error e => (Response.caught "Error completing purchase order" e, s')
    | Except.ok _ =>
      (Response.success 200 "Purchase Order completed successfully" Payload.empty, s')

/-! ## `src/controllers/contractController.js` -/

/-- `ContractController.generateContractNumber`: the number of contracts created in
the current year, plus one, formatted as `CNT-<year>-<count>` with the count
padded to five places. -/
def generateContractNumber (connection : Store) (year : Nat) : String :=
  let count := (connection.contracts.filter (fun c => c.created_at = year)).length + 1
  "CNT-" ++ toString year ++ "-" ++ padStart (toString count) 5 '0'

/-- Body of `POST /contracts`. -/
structure CreateContractBody where
  vendor_id : Option Key
  title : Option String
  description : String
  start_date : DateField
  end_date : DateField
  value : NumericField
  terms_conditions : String
  renewal_terms : String
  deriving DecidableEq, Repr

/-- `ContractController.createContract`.  The first statement of the `try` block is
`if (!ValidationUtils.isDateRange(start_date, end_date))`; in this controller
`ValidationUtils` is `undefined`, the call throws, and the `catch` block answers
500 `Error creating contract`.  No query runs, for any body: neither the branch
that answers 400 `Invalid date range` nor the transaction behind it is reached. -/
def createContract (_env : Env) (_body : CreateContractBody) (s : Store) : Response × Store :=
  (Response.caught "Error creating contract" (validationUtilsError "isDateRange"), s)

/-- Body of `PUT /contracts/:id`: the columns to set (`updateData`). -/
structure UpdateContractData where
  vendor_id : Option Key
  title : Option String
  description : Option String
  start_date : DateField
  end_date : DateField
  value : NumericField
  status : Option ContractStatus
  terms_conditions : Option String
  renewal_terms : Option String
  deriving DecidableEq, Repr

/-- Whether `updateData` names no column, so that `SET ?` expands to nothing. -/
def UpdateContractData.isEmpty (d : UpdateContractData) : Bool :=
  d.vendor_id.isNone && d.title.isNone && d.description.isNone && !d.start_date.truthy
    && !d.end_date.truthy && decide (d.value = NumericField.absent) && d.status.isNone
    && d.terms_conditions.isNone && d.renewal_terms.isNone

/-- Whether `updateData` holds a status outside the enumeration of the column. -/
def UpdateContractData.badStatus (d : UpdateContractData) : Bool :=
  match d.status with
  | some v => !v.inEnum
  | none => false

/-- Whether `updateData` holds a date string that is no date. -/
def UpdateContractData.badDate (d : UpdateContractData) : Bool :=
  d.start_date = DateField.invalid || d.end_date = DateField.invalid

/-- A date column after `SET`: a valid date is stored as its day, an invalid one
as the zero date, an absent one leaves the column. -/
def setDate (old : Nat) (date : DateField) : Nat :=
  match date with
  | DateField.absent => old
  | DateField.invalid => 0
  | DateField.valid instant => dayOf instant

/-- The row after `SET ?` with `updateData`. -/
def UpdateContractData.applyTo (d : UpdateContractData) (c : Contract) : Contract :=
  { c with
    vendor_id := d.vendor_id.getD c.vendor_id,
    title := d.title.getD c.title,
    description := d.description.getD c.description,
    start_date := setDate c.start_date d.start_date,
    end_date := setDate c.end_date d.end_date,
    value := if d.value = NumericField.absent then c.value else amountOf d.value,
    status := (d.status.map storedStatus).getD c.status,
    terms_conditions := d.terms_conditions.getD c.terms_conditions,
    renewal_terms := d.renewal_terms.getD c.renewal_terms }

/-- `UPDATE contracts SET ? WHERE id = ?` with `updateData`. -/
def updateContractRow (env : Env) (s : Store) (id : Key) (d : UpdateContractData) :
    Except String Store :=
  if d.isEmpty then
    Except.error "You have an error in your SQL syntax"
  else if (s.contracts.any (fun c => c.id = id) && env.strict && d.badStatus) = true then
    Except.error "Data truncated for column 'status' at row 1"
  else if (s.contracts.any (fun c => c.id = id) && env.strict && d.badDate) = true then
    Except.error "Incorrect date value"
  else
    Except.ok { s with
      contracts := s.contracts.map (fun c => if c.id = id then d.applyTo c else c) }

/-- The transaction callback of `updateContract`. -/
def updateContractTx (env : Env) (id : Key) (updateData : UpdateContractData)
    (connection : Store) : Except String (Unit × Store) :=
  match updateContractRow env connection id updateData with
  | Except.error e => Except.error e
  | Except.ok c1 =>
    Except.ok ((), insertAuditLog c1 "CONTRACT_UPDATE" "contract" id "Contract updated"
      env.user)

/-- `ContractController.updateContract`.  When the body holds both a `start_date`
and an `end_date`, the handler calls `ValidationUtils.isDateRange`, which throws on
the `undefined` `ValidationUtils`: the `catch` block answers 500
`Error updating contract` and no query runs.  Otherwise no date is checked and the
transaction runs. -/
def updateContract (env : Env) (id : Key) (updateData : UpdateContractData) (s : Store) :
    Response × Store :=
  if (updateData.start_date.truthy && updateData.end_date.truthy) = true then
    (Response.caught "Error updating contract" (validationUtilsError "isDateRange"), s)
  else
    match withTransaction (updateContractTx env id updateData) s with
    | (Except.error e, s') => (Response.caught "Error updating contract" e, s')
    | (Except.ok _, s') =>
      (Response.success 200 "Contract updated successfully" Payload.empty, s')

/-- The transaction callback of `approveContract`. -/
def approveContractTx (env : Env) (id : Key) (comments : String) (connection : Store) :
    Except String (Unit × Store) :=
  match updateContractStatus env connection id ContractStatus.active
      (fun c => { c with approved_by := some env.user, approval_comments := some comments }) with
  | Except.error e => Except.error e
  | Except.ok c1 =>
    Except.ok ((), insertAuditLog c1 "CONTRACT_APPROVAL" "contract" id "Contract approved"
      env.user)

/-- `ContractController.approveContract`. -/
def approveContract (env : Env) (id : Key) (comments : String) (s : Store) :
    Response × Store :=
  match withTransaction (approveContractTx env id comments) s with
  | (Except.error e, s') => (Response.caught "Error approving contract" e, s')
  | (Except.ok _, s') =>
    match sendNotification env with
    | Except.error e => (Response.caught "Error approving contract" e, s')
    | Except.ok _ =>
      (Response.success 200 "Contract approved successfully" Payload.empty, s')

/-- The transaction callback of `terminateContract`. -/
def terminateContractTx (env : Env) (id : Key) (termination_reason : String)
    (connection : Store) : Except String (Unit × Store) :=
  match updateContractStatus env connection id ContractStatus.terminated
      (fun c => { c with
        termination_reason := some termination_reason, terminated_by := some env.user }) with
  | Except.error e => Except.error e
  | Except.ok c1 =>
    Except.ok ((), insertAuditLog c1 "CONTRACT_TERMINATION" "contract" id
      "Contract terminated" env.user)

/-- `ContractController.terminateContract`. -/
def terminateContract (env : Env) (id : Key) (termination_reason : String) (s : Store) :
    Response × Store :=
  match withTransaction (terminateContractTx env id termination_reason) s with
  | (Except.error e, s') => (Response.caught "Error terminating contract" e, s')
  | (Except.ok _, s') =>
    match sendNotification env with
    | Except.error e => (Response.caught "Error terminating contract" e, s')
    | Except.ok _ =>
      (Response.success 200 "Contract terminated successfully" Payload.empty, s')

/-- The transaction callback of `rejectContract`. -/
def rejectContractTx (env : Env) (id : Key) (comments : String) (connection : Store) :
    Except String (Unit × Store) :=
  match updateContractStatus env connection id ContractStatus.rejected
      (fun c => { c with rejected_by := some env.user, rejection_comments := some comments }) with
  | Except.error e => Except.error e
  | Except.ok c1 =>
    Except.ok ((), insertAuditLog c1 "CONTRACT_REJECTION" "contract" id "Contract rejected"
      env.user)

/-- `ContractController.rejectContract`. -/
def rejectContract (env : Env) (id : Key) (comments : String) (s : Store) :
    Response × Store :=
  match withTransaction (rejectContractTx env id comments) s with
  | (Except.error e, s') => (Response.caught "Error rejecting contract" e, s')
  | (Except.ok _, s') =>
    match sendNotification env with
    | Except.error e => (Response.caught "Error rejecting contract" e, s')
    | Except.ok _ =>
      (Response.success 200 "Contract rejected successfully" Payload.empty, s')

/-- The transaction callback of `renewContract`. -/
def renewContractTx (env : Env) (id : Key) (renewal_terms : String) (connection : Store) :
    Except String (Unit × Store) :=
  match updateContractStatus env connection id ContractStatus.renewed
      (fun c => { c with renewal_terms := renewal_terms, renewed_by := some env.user }) with
  | Except.error e => Except.error e
  | Except.ok c1 =>
    Except.ok ((), insertAuditLog c1 "CONTRACT_RENEWAL" "contract" id "Contract renewed"
      env.user)

/-- `ContractController.renewContract`. -/
def renewContract (env : Env) (id : Key) (renewal_terms : String) (s : Store) :
    Response × Store :=
  match withTransaction (renewContractTx env id renewal_terms) s with
  | (Except.error e, s') => (Response.caught "Error renewing contract" e, s')
  | (Except.ok _, s') =>
    match sendNotification env with
    | Except.error e => (Response.caught "Error renewing contract" e, s')
    | Except.ok _ =>
      (Response.success 200 "Contract renewed successfully" Payload.empty, s')

/-- The transaction callback of `deleteContract`. -/
def deleteContractTx (env : Env) (id : Key) (connection : Store) :
    Except String (Unit × Store) :=
  let c1 := deleteContractRow connection id
  Except.ok ((), insertAuditLog c1 "CONTRACT_DELETION" "contract" id "Contract deleted"
    env.user)

/-- `ContractController.deleteContract`. -/
def deleteContract (env : Env) (id : Key) (s : Store) : Response × Store :=
  match withTransaction (deleteContractTx env id) s with
  | (Except.error e, s') => (Response.caught "Error deleting contract" e, s')
  | (Except.ok _, s') =>
    (Response.success 200 "Contract deleted successfully" Payload.empty, s')

/-! ## Requests and traces -/

/-- A request to one of the state-changing handlers of the three controllers. -/
inductive Op where
  | createBudget (body : CreateBudgetBody)
  | updateBudget (id : Key) (body : UpdateBudgetBody)
  | deleteBudget (id : Key)
  | allocateBudget (body : AllocateBody)
  | transferBudget (body : TransferBody)
  | createPurchaseOrder (body : PurchaseOrderBody)
  | updatePurchaseOrder (id : Key) (body : PurchaseOrderBody)
  | deletePurchaseOrder (id : Key)
  | approvePurchaseOrder (id : Key) (comments : String)
  | rejectPurchaseOrder (id : Key) (comments : String)
  | completePurchaseOrder (id : Key)
  | createContract (body : CreateContractBody)
  | updateContract (id : Key) (updateData : UpdateContractData)
  | approveContract (id : Key) (comments : String)
  | terminateContract (id : Key) (termination_reason : String)
  | rejectContract (id : Key) (comments : String)
  | renewContract (id : Key) (renewal_terms : String)
  | deleteContract (id : Key)
  deriving DecidableEq, Repr

/-- Dispatch of a request to its handler. -/
def handle (env : Env) (op : Op) (s : Store) : Response × Store :=
  match op with
  | Op.createBudget body => createBudget env body s
  | Op.updateBudget id body => updateBudget env id body s
  | Op.deleteBudget id => deleteBudget env id s
  | Op.allocateBudget body => allocateBudget env body s
  | Op.transferBudget body => transferBudget env body s
  | Op.createPurchaseOrder body => createPurchaseOrder env body s
  | Op.updatePurchaseOrder id body => updatePurchaseOrder env id body s
  | Op.deletePurchaseOrder id => deletePurchaseOrder env id s
  | Op.approvePurchaseOrder id comments => approvePurchaseOrder env id comments s
  | Op.rejectPurchaseOrder id comments => rejectPurchaseOrder env id comments s
  | Op.completePurchaseOrder id => completePurchaseOrder env id s
  | Op.createContract body => createContract env body s
  | Op.updateContract id updateData => updateContract env id updateData s
  | Op.approveContract id comments => approveContract env id comments s
  | Op.terminateContract id termination_reason => terminateContract env id termination_reason s
  | Op.rejectContract id comments => rejectContract env id comments s
  | Op.renewContract id renewal_terms => renewContract env id renewal_terms s
  | Op.deleteContract id => deleteContract env id s

/-- The store after serving a sequence of requests, one after the other. -/
def run (trace : List (Env × Op)) (s : Store) : Store :=
  trace.foldl (fun st e => (handle e.1 e.2 st).2) s

/-! ## Derived notions -/

/-- The ledger equation on every envelope: `remaining = total - allocated`. -/
def LedgerEquation (s : Store) : Prop :=
  ∀ b ∈ s.budgets, b.remaining_amount = b.total_amount - b.allocated_amount

instance (s : Store) : Decidable (LedgerEquation s) := by
  unfold LedgerEquation
  infer_instance

/-- The request context with the given outcome of the notification call. -/
def Env.withMail (env : Env) (m : Option String) : Env :=
  { env with mailError := m }

/-- The handlers that reach their call of the email service: approve, reject and
complete purchase order and the four contract transitions.  (`createBudget`,
`transferBudget`, `createPurchaseOrder` and `createContract` hold such a call
behind a statement that no request passes.) -/
def Op.notifies : Op → Bool
  | Op.approvePurchaseOrder _ _ => true
  | Op.rejectPurchaseOrder _ _ => true
  | Op.completePurchaseOrder _ => true
  | Op.approveContract _ _ => true
  | Op.terminateContract _ _ => true
  | Op.rejectContract _ _ => true
  | Op.renewContract _ _ => true
  | _ => false

/-- The `message` of the response a handler sends from its `catch` block. -/
def Op.failureMessage : Op → String
  | Op.createBudget _ => "Error creating budget"
  | Op.updateBudget _ _ => "Error updating budget"
  | Op.deleteBudget _ => "Error deleting budget"
  | Op.allocateBudget _ => "Error allocating budget"
  | Op.transferBudget _ => "Error transferring budget"
  | Op.createPurchaseOrder _ => "Error creating purchase order"
  | Op.updatePurchaseOrder _ _ => "Error updating purchase order"
  | Op.deletePurchaseOrder _ => "Error deleting purchase order"
  | Op.approvePurchaseOrder _ _ => "Error approving purchase order"
  | Op.rejectPurchaseOrder _ _ => "Error rejecting purchase order"
  | Op.completePurchaseOrder _ => "Error completing purchase order"
  | Op.createContract _ => "Error creating contract"
  | Op.updateContract _ _ => "Error updating contract"
  | Op.approveContract _ _ => "Error approving contract"
  | Op.terminateContract _ _ => "Error terminating contract"
  | Op.rejectContract _ _ => "Error rejecting contract"
  | Op.renewContract _ _ => "Error renewing contract"
  | Op.deleteContract _ => "Error deleting contract"

/-- The sum of `total_amount` over the department's purchase orders whose status
is not `rejected`. -/
def committedAmount (s : Store) (department_id : Key) : Amount :=
  ((s.purchase_orders.filter
    (fun po => po.department_id = department_id ∧ ¬ po.status = POStatus.rejected)).map
    (fun po => po.total_amount)).sum

/-- The settlement invariant of fiscal year `y`: purchase-order keys are distinct,
every order is a draft, and every envelope of year `y` has as `allocated_amount`
the sum over its department's orders. -/
def Settled (y : Nat) (s : Store) : Prop :=
  (s.purchase_orders.map (fun po => po.id)).Nodup ∧
  (∀ po ∈ s.purchase_orders, po.status = POStatus.draft) ∧
  (∀ b ∈ s.budgets, b.fiscal_year = y →
    b.allocated_amount = committedAmount s b.department_id)

/-- The three handlers that are to settle an order against its envelope:
`createPurchaseOrder`, `updatePurchaseOrder` and `deletePurchaseOrder`. -/
def Op.settles : Op → Bool
  | Op.createPurchaseOrder _ => true
  | Op.updatePurchaseOrder _ _ => true
  | Op.deletePurchaseOrder _ => true
  | _ => false

/-- The requests that open an envelope or move its amounts: `createBudget`,
`allocateBudget`, `transferBudget`, `createPurchaseOrder` and
`deletePurchaseOrder`. -/
def Op.spends : Op → Bool
  | Op.createBudget _ => true
  | Op.allocateBudget _ => true
  | Op.transferBudget _ => true
  | Op.createPurchaseOrder _ => true
  | Op.deletePurchaseOrder _ => true
  | _ => false

/-- The two handlers that write the dates of a contract: `createContract` and
`updateContract`. -/
def Op.writesDates : Op → Bool
  | Op.createContract _ => true
  | Op.updateContract _ _ => true
  | _ => false

/-- Every envelope is as `createBudget` is to write it (a positive total, nothing
allocated, the total remaining) and there is no purchase order. -/
def Fresh (s : Store) : Prop :=
  s.purchase_orders = [] ∧
  ∀ b ∈ s.budgets, 0 < b.total_amount ∧ b.allocated_amount = 0 ∧
    b.remaining_amount = b.total_amount

/-- The utilization `getDepartmentBudget` computes lies between 0 and 100, for
every department and fiscal year that has an envelope. -/
def UtilizationWithin (s : Store) : Prop :=
  ∀ department_id fiscal_year r,
    getDepartmentBudget s department_id fiscal_year = some r → 0 ≤ r.2 ∧ r.2 ≤ 100

/-- The number `generatePONumber` produces next in year `y` is the `po_number` of no
purchase order in the store. -/
def NextNumberUnused (y : Nat) (s : Store) : Prop :=
  ∀ po ∈ s.purchase_orders, po.po_number ≠ generatePONumber s y

/-- Every contract starts strictly before it ends. -/
def DateRanges (s : Store) : Prop :=
  ∀ c ∈ s.contracts, c.start_date < c.end_date

/-! ## Sample requests and stores -/

/-- A request context: year 2026, user 7, the mailer succeeds, strict SQL mode. -/
def env2026 : Env :=
  { year := 2026, user := 7, mailError := none, strict := true }

/-- The request context `env2026` on a server that is not in strict SQL mode. -/
def env2026Lax : Env :=
  { year := 2026, user := 7, mailError := none, strict := false }

/-- The request context of the repository as it is in 2026: the call of
`emailService.sendPOApprovalNotification`, a method `src/utils/email.js` does not
define, throws. -/
def envRepository : Env :=
  { year := 2026, user := 7,
    mailError := some "emailService.sendPOApprovalNotification is not a function",
    strict := true }

/-- A `createBudget` body for fiscal year 2026. -/
def budgetBody (department_id : Key) (total_amount : Amount) : CreateBudgetBody :=
  { department_id := department_id, fiscal_year := 2026,
    total_amount := NumericField.number total_amount, notes := "" }

/-- A purchase-order body with one line item. -/
def poBody (department_id : Key) (total_amount : Amount) : PurchaseOrderBody :=
  { vendor_id := some 3, contract_id := none, department_id := some department_id,
    items := some [{ description := "paper", quantity := 1, unit_price := total_amount }],
    total_amount := NumericField.number total_amount, delivery_date := "2026-12-01",
    delivery_address := "", special_instructions := "" }

/-- A purchase-order body whose `items` array is empty. -/
def noItemsBody (department_id : Key) (total_amount : Amount) : PurchaseOrderBody :=
  { vendor_id := some 3, contract_id := none, department_id := some department_id,
    items := some [], total_amount := NumericField.number total_amount,
    delivery_date := "2026-12-01", delivery_address := "", special_instructions := "" }

/-- A `transferBudget` body. -/
def transferBody (source : Key) (target : Key) (amount : Amount) : TransferBody :=
  { from_department_id := source, to_department_id := target,
    amount := NumericField.number amount, reason := "" }

/-- An `allocateBudget` body. -/
def allocateBody (department_id : Key) (amount : Amount) : AllocateBody :=
  { department_id := department_id, amount := NumericField.number amount, notes := "" }

/-- A `createContract` body with a valid date range. -/
def contractBody : CreateContractBody :=
  { vendor_id := some 3, title := some "Paper supply", description := "",
    start_date := DateField.valid 0, end_date := DateField.valid 2592000000,
    value := NumericField.number 1000, terms_conditions := "", renewal_terms := "" }

/-- An envelope row of fiscal year 2026 with nothing allocated, as `createBudget`
is to write it for user 7. -/
def freshBudget (id : Key) (department_id : Key) (total_amount : Amount) : Budget :=
  { id := id, department_id := department_id, fiscal_year := 2026,
    total_amount := total_amount, allocated_amount := 0, remaining_amount := total_amount,
    status := BudgetStatus.active, notes := "", created_by := 7 }

/-- A purchase-order row of department 1 with one line item, written by user 7. -/
def paperOrder (id : Key) (po_number : String) (total_amount : Amount) (status : POStatus)
    (created_at : Nat) : PurchaseOrder :=
  { id := id, po_number := po_number, vendor_id := 3, contract_id := none,
    department_id := 1,
    items := [{ description := "paper", quantity := 1, unit_price := total_amount }],
    total_amount := total_amount, status := status, delivery_date := "2026-12-01",
    delivery_address := "", special_instructions := "", approved_by := none,
    approval_comments := none, created_by := 7, created_at := created_at }

/-- An `audit_logs` row written by user 7. -/
def auditRow (event_type : String) (entity_type : String) (entity_id : Key)
    (description : String) : AuditLog :=
  { event_type := event_type, entity_type := entity_type, entity_id := entity_id,
    description := description, created_by := 7 }

/-- Table content: one envelope, department 1, fiscal year 2026, total 10000,
nothing allocated. -/
def oneBudget : Store :=
  { Store.empty with
    budgets := [freshBudget 1 1 10000],
    audit_logs := [auditRow "BUDGET_CREATION" "budget" 1
      "Budget created for department 1 - FY 2026"],
    lastKey := 1 }

/-- Table content: one envelope, department 1, fiscal year 2026, total 100,
nothing allocated. -/
def smallBudget : Store :=
  { Store.empty with
    budgets := [freshBudget 1 1 100],
    audit_logs := [auditRow "BUDGET_CREATION" "budget" 1
      "Budget created for department 1 - FY 2026"],
    lastKey := 1 }

/-- Table content: two envelopes of fiscal year 2026, department 1 with total 100
and department 2 with total 50, nothing allocated. -/
def twoBudgets : Store :=
  { Store.empty with
    budgets := [freshBudget 1 1 100, freshBudget 2 2 50],
    audit_logs := [
      auditRow "BUDGET_CREATION" "budget" 1 "Budget created for department 1 - FY 2026",
      auditRow "BUDGET_CREATION" "budget" 2 "Budget created for department 2 - FY 2026"],
    lastKey := 2 }

/-- Table content: an envelope of 10000 for department 1 with 2000 allocated, and
the one purchase order it pays for (key 3, 2000, `PO-2026-00002`); an order of 1000
numbered `PO-2026-00001` was created before it and has been deleted. -/
def afterDeletion : Store :=
  { Store.empty with
    budgets := [
      { freshBudget 1 1 10000 with allocated_amount := 2000, remaining_amount := 8000 }],
    purchase_orders := [paperOrder 3 "PO-2026-00002" 2000 POStatus.draft 2026],
    audit_logs := [
      auditRow "BUDGET_CREATION" "budget" 1 "Budget created for department 1 - FY 2026",
      auditRow "PO_CREATION" "purchase_order" 2 "Purchase Order PO-2026-00001 created",
      auditRow "PO_CREATION" "purchase_order" 3 "Purchase Order PO-2026-00002 created",
      auditRow "PO_DELETION" "purchase_order" 2 "Purchase Order deleted"],
    lastKey := 3 }

/-- Table content: an envelope of 10000 for department 1 with 4000 allocated, and
the one draft purchase order it pays for (key 2, 4000). -/
def oneOrder : Store :=
  { Store.empty with
    budgets := [
      { freshBudget 1 1 10000 with allocated_amount := 4000, remaining_amount := 6000 }],
    purchase_orders := [paperOrder 2 "PO-2026-00001" 4000 POStatus.draft 2026],
    audit_logs := [
      auditRow "BUDGET_CREATION" "budget" 1 "Budget created for department 1 - FY 2026",
      auditRow "PO_CREATION" "purchase_order" 2 "Purchase Order PO-2026-00001 created"],
    lastKey := 2 }

/-- Table content at the end of 2025: department 1 has an envelope of 10000 for 2025
with 4000 allocated and one of 5000 for 2026, and a purchase order of 4000 created
in 2025 (key 3). -/
def crossYear : Store :=
  { Store.empty with
    budgets := [
      { freshBudget 1 1 10000 with
        fiscal_year := 2025, allocated_amount := 4000, remaining_amount := 6000 },
      freshBudget 2 1 5000],
    purchase_orders := [paperOrder 3 "PO-2025-00001" 4000 POStatus.draft 2025],
    audit_logs := [
      auditRow "BUDGET_CREATION" "budget" 1 "Budget created for department 1 - FY 2025",
      auditRow "BUDGET_CREATION" "budget" 2 "Budget created for department 1 - FY 2026",
      auditRow "PO_CREATION" "purchase_order" 3 "Purchase Order PO-2025-00001 created"],
    lastKey := 3 }

/-- Table content: an envelope of 10000 with 4000 allocated and a purchase order of
4000 (key 2) in status `rejected`. -/
def rejectedOrder : Store :=
  { Store.empty with
    budgets := [
      { freshBudget 1 1 10000 with allocated_amount := 4000, remaining_amount := 6000 }],
    purchase_orders := [
      { paperOrder 2 "PO-2026-00001" 4000 POStatus.rejected 2026 with
        approved_by := some 7, approval_comments := some "over budget" }],
    audit_logs := [
      auditRow "BUDGET_CREATION" "budget" 1 "Budget created for department 1 - FY 2026",
      auditRow "PO_CREATION" "purchase_order" 2 "Purchase Order PO-2026-00001 created",
      auditRow "PO_REJECTION" "purchase_order" 2 "Purchase Order rejected"],
    lastKey := 2 }

/-- Table content: one contract in status `draft` (key 1), from day 0 to day 30. -/
def oneContract : Store :=
  { Store.empty with
    audit_logs := [auditRow "CONTRACT_CREATION" "contract" 1 "Contract CNT-2026-00001 created"],
    contracts := [
      { id := 1, vendor_id := 3, contract_number := "CNT-2026-00001", title := "Paper supply",
        description := "", start_date := 0, end_date := 30, value := 1000,
        status := ContractStatus.draft, terms_conditions := "", renewal_terms := "",
        created_by := 7, created_at := 2026, approved_by := none, approval_comments := none,
        termination_reason := none, terminated_by := none, rejected_by := none,
        rejection_comments := none, renewed_by := none }],
    lastKey := 1 }

/-- The database fails at statement `n` with the given error, and nowhere else. -/
def faultAt (n : Nat) (e : String) : Nat → Option String :=
  fun k => if k = n then some e else none

/-- An `updateContract` body that names `start_date` only: day 40. -/
def startOnly : UpdateContractData :=
  { vendor_id := none, title := none, description := none,
    start_date := DateField.valid 3456000000, end_date := DateField.absent,
    value := NumericField.absent, status := none, terms_conditions := none,
    renewal_terms := none }

/-- An `updateContract` body that names both dates, the start (day 10) before the
end (day 30). -/
def bothDates : UpdateContractData :=
  { vendor_id := none, title := none, description := none,
    start_date := DateField.valid 864000000, end_date := DateField.valid 2592000000,
    value := NumericField.absent, status := none, terms_conditions := none,
    renewal_terms := none }

/-- One request to each of the seven handlers that are to keep the ledger of the
envelopes, in 2026; the last deletes the order with key 2. -/
def ledgerTrace : List (Env × Op) :=
  [(env2026, Op.createBudget (budgetBody 2 500)),
   (env2026, Op.updateBudget 1 { total_amount := NumericField.number 20000, notes := "" }),
   (env2026, Op.allocateBudget (allocateBody 1 500)),
   (env2026, Op.transferBudget (transferBody 1 2 30)),
   (env2026, Op.createPurchaseOrder (poBody 1 1000)),
   (env2026, Op.updatePurchaseOrder 2 (poBody 1 5000)),
   (env2026, Op.deletePurchaseOrder 2)]

/-- Requests in 2026 to `createPurchaseOrder`, `updatePurchaseOrder` and
`deletePurchaseOrder`. -/
def settlingTrace : List (Env × Op) :=
  [(env2026, Op.createPurchaseOrder (poBody 1 4000)),
   (env2026, Op.updatePurchaseOrder 2 (poBody 1 5000)),
   (env2026, Op.deletePurchaseOrder 2)]

/-- Requests in 2026 to `createBudget`, `allocateBudget`, `transferBudget`,
`createPurchaseOrder` and `deletePurchaseOrder`. -/
def spendingTrace : List (Env × Op) :=
  [(env2026, Op.createBudget (budgetBody 3 10000)),
   (env2026, Op.allocateBudget (allocateBody 1 150)),
   (env2026, Op.transferBudget (transferBody 1 2 30)),
   (env2026, Op.createPurchaseOrder (poBody 1 40)),
   (env2026, Op.deletePurchaseOrder 2)]

/-- Requests in 2026 to `createContract` and to `updateContract`, with one date and
with both dates in the body. -/
def contractTrace : List (Env × Op) :=
  [(env2026, Op.createContract contractBody),
   (env2026, Op.updateContract 1 startOnly),
   (env2026, Op.updateContract 1 bothDates)]

/-- The row of the `n`-th purchase order of 2026: key `n`, number `PO-2026-` and
`n` padded to five places, department 1, amount 1. -/
def orderOf2026 (n : Nat) : PurchaseOrder :=
  { id := n, po_number := "PO-2026-" ++ padStart (toString n) 5 '0', vendor_id := 3,
    contract_id := none, department_id := 1, items := [], total_amount := 1,
    status := POStatus.draft, delivery_date := "", delivery_address := "",
    special_instructions := "", approved_by := none, approval_comments := none,
    created_by := 7, created_at := 2026 }

/-- A store whose purchase-order table has `n` rows created in 2026, numbered 1 to
`n`. -/
def ordersOf2026 (n : Nat) : Store :=
  { Store.empty with
    purchase_orders := (List.range n).map (fun i => orderOf2026 (i + 1)),
    lastKey := n }

/-! ## The store a handler leaves -/

/-- The handler `createPurchaseOrder` answers 400 and leaves the store, for every
request. -/
theorem createPurchaseOrder_rejects (env : Env) (body : PurchaseOrderBody) (s : Store) :
    (createPurchaseOrder env body s).1.code = 400 ∧
    (createPurchaseOrder env body s).1.status = "error" ∧
    (createPurchaseOrder env body s).2 = s := by
  unfold createPurchaseOrder
  split <;> exact ⟨rfl, rfl, rfl⟩

/-- The handler `updatePurchaseOrder` answers 400 and leaves the store, for every
request. -/
theorem updatePurchaseOrder_rejects (env : Env) (id : Key) (body : PurchaseOrderBody)
    (s : Store) :
    (updatePurchaseOrder env id body s).1.code = 400 ∧
    (updatePurchaseOrder env id body s).1.status = "error" ∧
    (updatePurchaseOrder env id body s).2 = s := by
  unfold updatePurchaseOrder
  split <;> exact ⟨rfl, rfl, rfl⟩

theorem deletePurchaseOrder_snd (env : Env) (id : Key) (s : Store) :
    (deletePurchaseOrder env id s).2 =
      match (selectPurchaseOrders s id).head? with
      | none => s
      | some po => (withTransaction (deletePurchaseOrderTx env id po) s).2 := by
  unfold deletePurchaseOrder
  split
  · rfl
  · rfl

/-- For an id that no purchase order has, `deletePurchaseOrder` answers 404 and
leaves the store. -/
theorem deletePurchaseOrder_absent (env : Env) (id : Key) (s : Store)
    (h : ∀ po ∈ s.purchase_orders, po.id ≠ id) :
    deletePurchaseOrder env id s = (Response.reject 404 "Purchase Order not found", s) := by
  have hsel : selectPurchaseOrders s id = [] := by
    unfold selectPurchaseOrders
    rw [List.filter_eq_nil_iff]
    intro po hpo
    simpa using h po hpo
  simp [deletePurchaseOrder, hsel]

theorem approvePurchaseOrder_budgets (env : Env) (id : Key) (comments : String) (s : Store) :
    (approvePurchaseOrder env id comments s).2.budgets = s.budgets := by
  unfold approvePurchaseOrder
  cases sendNotification env <;> rfl

theorem rejectPurchaseOrder_budgets (env : Env) (id : Key) (comments : String) (s : Store) :
    (rejectPurchaseOrder env id comments s).2.budgets = s.budgets := by
  unfold rejectPurchaseOrder
  cases sendNotification env <;> rfl

theorem completePurchaseOrder_budgets (env : Env) (id : Key) (s : Store) :
    (completePurchaseOrder env id s).2.budgets = s.budgets := by
  unfold completePurchaseOrder
  cases sendNotification env <;> rfl

theorem updateContract_budgets (env : Env) (id : Key) (d : UpdateContractData) (s : Store) :
    (updateContract env id d s).2.budgets = s.budgets := by
  unfold updateContract withTransaction updateContractTx updateContractRow
  split_ifs <;> rfl

theorem approveContract_budgets (env : Env) (id : Key) (comments : String) (s : Store) :
    (approveContract env id comments s).2.budgets = s.budgets := by
  unfold approveContract withTransaction approveContractTx updateContractStatus
  split_ifs <;> cases sendNotification env <;> rfl

theorem terminateContract_budgets (env : Env) (id : Key) (reason : String) (s : Store) :
    (terminateContract env id reason s).2.budgets = s.budgets := by
  unfold terminateContract withTransaction terminateContractTx updateContractStatus
  split_ifs <;> cases sendNotification env <;> rfl

theorem rejectContract_budgets (env : Env) (id : Key) (comments : String) (s : Store) :
    (rejectContract env id comments s).2.budgets = s.budgets := by
  unfold rejectContract withTransaction rejectContractTx updateContractStatus
  split_ifs <;> cases sendNotification env <;> rfl

theorem renewContract_budgets (env : Env) (id : Key) (terms : String) (s : Store) :
    (renewContract env id terms s).2.budgets = s.budgets := by
  unfold renewContract withTransaction renewContractTx updateContractStatus
  split_ifs <;> cases sendNotification env <;> rfl

theorem deleteContract_budgets (env : Env) (id : Key) (s : Store) :
    (deleteContract env id s).2.budgets = s.budgets := rfl

/-- With no contract in the table, `updateContract` leaves it empty. -/
theorem updateContract_contracts_nil (env : Env) (id : Key) (d : UpdateContractData)
    (s : Store) (h : s.contracts = []) : (updateContract env id d s).2.contracts = [] := by
  unfold updateContract withTransaction updateContractTx updateContractRow
  split_ifs <;> simp [insertAuditLog, h]

theorem envelope_key (s : Store) (d : Key) (y : Nat) (b : Budget)
    (h : envelope s d y = some b) : b.department_id = d ∧ b.fiscal_year = y := by
  unfold envelope selectBudgets at h
  have hm : b ∈ s.budgets.filter (fun b => b.department_id = d ∧ b.fiscal_year = y) :=
    List.mem_of_mem_head? h
  simpa using (List.mem_filter.mp hm).2

theorem envelope_mem (s : Store) (d : Key) (y : Nat) (b : Budget)
    (h : envelope s d y = some b) : b ∈ s.budgets := by
  unfold envelope selectBudgets at h
  exact (List.mem_filter.mp (List.mem_of_mem_head? h)).1

/-! ## The ledger equation along a trace -/

theorem updateBudgetsOf_ledger (s : Store) (d : Key) (y : Nat) (f : Budget → Budget)
    (hf : ∀ b, b.remaining_amount = b.total_amount - b.allocated_amount →
      (f b).remaining_amount = (f b).total_amount - (f b).allocated_amount)
    (h : LedgerEquation s) : LedgerEquation (updateBudgetsOf s d y f) := by
  intro b hb
  simp only [updateBudgetsOf, List.mem_map] at hb
  obtain ⟨b0, hb0, rfl⟩ := hb
  split
  · exact hf b0 (h b0 hb0)
  · exact h b0 hb0

theorem deletePurchaseOrderTx_ledger (env : Env) (id : Key) (po : PurchaseOrder) (s : Store)
    (h : LedgerEquation s) :
    LedgerEquation (withTransaction (deletePurchaseOrderTx env id po) s).2 := by
  unfold withTransaction deletePurchaseOrderTx
  simp only
  refine updateBudgetsOf_ledger _ po.department_id env.year _
    (by intro b hb; simp only [hb]; ring) ?_
  exact h

/-- Every handler takes a store that satisfies the ledger equation to one that
does: `deletePurchaseOrder` writes `allocated_amount` and `remaining_amount`
together, `deleteBudget` removes rows, and no other handler writes an envelope. -/
theorem handle_ledger (env : Env) (op : Op) (s : Store) (h : LedgerEquation s) :
    LedgerEquation (handle env op s).2 := by
  have hsame : ∀ s' : Store, s'.budgets = s.budgets → LedgerEquation s' := by
    intro s' hs b hb
    rw [hs] at hb
    exact h b hb
  cases op with
  | createBudget body => exact h
  | updateBudget id body => exact h
  | deleteBudget id =>
    intro b hb
    have hb' : b ∈ s.budgets.filter (fun b => ¬ b.id = id) := hb
    exact h b (List.mem_filter.mp hb').1
  | allocateBudget body => exact h
  | transferBudget body => exact h
  | createPurchaseOrder body =>
    simp only [handle]
    rw [(createPurchaseOrder_rejects env body s).2.2]
    exact h
  | updatePurchaseOrder id body =>
    simp only [handle]
    rw [(updatePurchaseOrder_rejects env id body s).2.2]
    exact h
  | deletePurchaseOrder id =>
    simp only [handle, deletePurchaseOrder_snd]
    split
    · exact h
    · exact deletePurchaseOrderTx_ledger env id _ s h
  | approvePurchaseOrder id comments =>
    exact hsame _ (approvePurchaseOrder_budgets env id comments s)
  | rejectPurchaseOrder id comments =>
    exact hsame _ (rejectPurchaseOrder_budgets env id comments s)
  | completePurchaseOrder id => exact hsame _ (completePurchaseOrder_budgets env id s)
  | createContract body => exact h
  | updateContract id updateData => exact hsame _ (updateContract_budgets env id updateData s)
  | approveContract id comments => exact hsame _ (approveContract_budgets env id comments s)
  | terminateContract id reason => exact hsame _ (terminateContract_budgets env id reason s)
  | rejectContract id comments => exact hsame _ (rejectContract_budgets env id comments s)
  | renewContract id terms => exact hsame _ (renewContract_budgets env id terms s)
  | deleteContract id => exact hsame _ (deleteContract_budgets env id s)

theorem run_ledger (trace : List (Env × Op)) (s : Store) (h : LedgerEquation s) :
    LedgerEquation (run trace s) := by
  induction trace generalizing s with
  | nil => exact h
  | cons e t ih =>
    simp only [run, List.foldl_cons]
    exact ih _ (handle_ledger e.1 e.2 s h)

/-! ## Requests that leave the store -/

/-- A request to `createBudget`, `allocateBudget`, `transferBudget`,
`createPurchaseOrder`, `updatePurchaseOrder` or `createContract` leaves the store,
and so does a request to `deletePurchaseOrder` when the table holds no order. -/
theorem handle_without_orders (env : Env) (op : Op) (s : Store)
    (hop : op.settles = true ∨ op.spends = true) (hpo : s.purchase_orders = []) :
    (handle env op s).2 = s := by
  have hdel : ∀ id, (deletePurchaseOrder env id s).2 = s := by
    intro id
    rw [deletePurchaseOrder_absent env id s (by rw [hpo]; intro po hp; cases hp)]
  cases op with
  | createBudget body => rfl
  | allocateBudget body => rfl
  | transferBudget body => rfl
  | createPurchaseOrder body => exact (createPurchaseOrder_rejects env body s).2.2
  | updatePurchaseOrder id body => exact (updatePurchaseOrder_rejects env id body s).2.2
  | deletePurchaseOrder id => exact hdel id
  | _ => simp [Op.settles, Op.spends] at hop

theorem run_without_orders (trace : List (Env × Op)) (s : Store)
    (ht : ∀ e ∈ trace, e.2.settles = true ∨ e.2.spends = true)
    (hpo : s.purchase_orders = []) : run trace s = s := by
  induction trace with
  | nil => rfl
  | cons e t ih =>
    have he := handle_without_orders e.1 e.2 s (ht e (List.mem_cons_self _ _)) hpo
    have hrun : run (e :: t) s = run t (handle e.1 e.2 s).2 := rfl
    rw [hrun, he]
    exact ih (fun x hx => ht x (List.mem_cons_of_mem _ hx))

/-- Requests to `createContract` and `updateContract` leave an empty `contracts`
table empty. -/
theorem run_contracts_nil (trace : List (Env × Op)) (s : Store)
    (ht : ∀ e ∈ trace, e.2.writesDates = true) (hc : s.contracts = []) :
    (run trace s).contracts = [] := by
  induction trace generalizing s with
  | nil => exact hc
  | cons e t ih =>
    have hrun : run (e :: t) s = run t (handle e.1 e.2 s).2 := rfl
    rw [hrun]
    apply ih _ (fun x hx => ht x (List.mem_cons_of_mem _ hx))
    have hop := ht e (List.mem_cons_self _ _)
    cases hop' : e.2 with
    | createContract body => exact hc
    | updateContract id updateData => exact updateContract_contracts_nil e.1 id updateData s hc
    | _ => rw [hop'] at hop; simp [Op.writesDates] at hop

/-! ## Settlement of purchase orders -/

/-- The handler `deletePurchaseOrder`, for an order that exists, credits the envelopes
of the order's department and of the current year by the order's amount, and no
other envelope. -/
theorem deletePurchaseOrder_budgets (env : Env) (id : Key) (s : Store) (po : PurchaseOrder)
    (h : (selectPurchaseOrders s id).head? = some po) :
    (deletePurchaseOrder env id s).2.budgets = s.budgets.map (fun b =>
      if b.department_id = po.department_id ∧ b.fiscal_year = env.year then
        { b with
          allocated_amount := b.allocated_amount - po.total_amount,
          remaining_amount := b.remaining_amount + po.total_amount }
      else b) := by
  rw [deletePurchaseOrder_snd, h]
  rfl

/-- Removing the order `po` from orders with distinct keys lowers a filtered sum of
amounts by the amount of `po`, when `po` passes the filter. -/
theorem sum_filter_remove (l : List PurchaseOrder) (po : PurchaseOrder) (q : PurchaseOrder → Bool)
    (hn : (l.map (fun x => x.id)).Nodup) (hpo : po ∈ l) :
    (((l.filter (fun x => ¬ x.id = po.id)).filter q).map (fun x => x.total_amount)).sum =
      ((l.filter q).map (fun x => x.total_amount)).sum -
        (if q po = true then po.total_amount else 0) := by
  induction l with
  | nil => cases hpo
  | cons a t ih =>
    simp only [List.map_cons, List.nodup_cons] at hn
    obtain ⟨hat, hnt⟩ := hn
    by_cases hpa : a.id = po.id
    · -- the removed order is `a`
      have hpoa : po = a := by
        rcases List.mem_cons.mp hpo with h | h
        · exact h
        · exact absurd (List.mem_map.mpr ⟨po, h, hpa.symm⟩) hat
      subst hpoa
      have ht : t.filter (fun x => ¬ x.id = po.id) = t := by
        rw [List.filter_eq_self]
        intro x hx
        simp only [decide_not, Bool.not_eq_true', decide_eq_false_iff_not]
        intro hxe
        exact hat (List.mem_map.mpr ⟨x, hx, hxe⟩)
      simp only [List.filter_cons, decide_not, decide_True, Bool.not_true, Bool.false_eq_true,
        if_false]
      simp only [decide_not] at ht
      rw [ht]
      by_cases hq : q po = true
      · simp [hq]
      · simp [hq]
    · have hpot : po ∈ t := by
        rcases List.mem_cons.mp hpo with h | h
        · exact absurd (by rw [h]) hpa
        · exact h
      have ih' := ih hnt hpot
      simp only [List.filter_cons, hpa, not_false_eq_true, decide_True, if_true]
      by_cases hq : q a = true
      · simp only [hq, if_true, List.map_cons, List.sum_cons]
        rw [ih']
        ring
      · simp only [hq, if_false]
        exact ih'

theorem deletePurchaseOrder_settled (y : Nat) (env : Env) (id : Key) (s : Store)
    (hy : env.year = y) (h : Settled y s) : Settled y (deletePurchaseOrder env id s).2 := by
  rw [deletePurchaseOrder_snd]
  cases hsel : (selectPurchaseOrders s id).head? with
  | none => exact h
  | some po =>
    simp only
    obtain ⟨hn, hst, hb⟩ := h
    have hmem : po ∈ s.purchase_orders.filter (fun po => po.id = id) := by
      unfold selectPurchaseOrders at hsel
      exact List.mem_of_mem_head? hsel
    obtain ⟨hpo, hpid⟩ := List.mem_filter.mp hmem
    simp only [decide_eq_true_eq] at hpid
    have hpos : (withTransaction (deletePurchaseOrderTx env id po) s).2.purchase_orders =
        s.purchase_orders.filter (fun x => ¬ x.id = po.id) := by
      rw [hpid]; rfl
    have hbud : (withTransaction (deletePurchaseOrderTx env id po) s).2.budgets =
        s.budgets.map (fun b =>
          if b.department_id = po.department_id ∧ b.fiscal_year = env.year then
            { b with
              allocated_amount := b.allocated_amount - po.total_amount,
              remaining_amount := b.remaining_amount + po.total_amount }
          else b) := rfl
    refine ⟨?_, ?_, ?_⟩
    · rw [hpos]
      exact List.Nodup.sublist (List.Sublist.map _ (List.filter_sublist _)) hn
    · intro x hx
      rw [hpos] at hx
      exact hst x (List.mem_filter.mp hx).1
    · intro b' hb' hfy
      rw [hbud] at hb'
      obtain ⟨b, hbm, rfl⟩ := List.mem_map.mp hb'
      have hsum : committedAmount (withTransaction (deletePurchaseOrderTx env id po) s).2
          (if b.department_id = po.department_id ∧ b.fiscal_year = env.year then
            { b with
              allocated_amount := b.allocated_amount - po.total_amount,
              remaining_amount := b.remaining_amount + po.total_amount }
          else b).department_id =
          committedAmount s b.department_id -
            (if po.department_id = b.department_id then po.total_amount else 0) := by
        have hdep : (if b.department_id = po.department_id ∧ b.fiscal_year = env.year then
            { b with
              allocated_amount := b.allocated_amount - po.total_amount,
              remaining_amount := b.remaining_amount + po.total_amount }
          else b).department_id = b.department_id := by
          split <;> rfl
        rw [hdep]
        unfold committedAmount
        rw [hpos, sum_filter_remove s.purchase_orders po _ hn hpo]
        simp [hst po hpo]
      rw [hsum]
      by_cases hc : b.department_id = po.department_id ∧ b.fiscal_year = env.year
      · rw [if_pos hc] at hfy ⊢
        simp only
        rw [hb b hbm (by rw [hc.2, hy]), hc.1]
        simp
      · rw [if_neg hc] at hfy ⊢
        rw [hb b hbm hfy]
        have hne : ¬ po.department_id = b.department_id := by
          intro he
          exact hc ⟨he.symm, by rw [hfy, hy]⟩
        simp [hne]

/-- Each of `createPurchaseOrder`, `updatePurchaseOrder` and `deletePurchaseOrder`
keeps the settlement invariant of the current year: the first two leave the store,
the third removes the order and credits its amount. -/
theorem handle_settled (y : Nat) (env : Env) (op : Op) (s : Store) (hy : env.year = y)
    (hop : op.settles = true) (h : Settled y s) : Settled y (handle env op s).2 := by
  cases op with
  | createPurchaseOrder body =>
    simp only [handle]
    rw [(createPurchaseOrder_rejects env body s).2.2]
    exact h
  | updatePurchaseOrder id body =>
    simp only [handle]
    rw [(updatePurchaseOrder_rejects env id body s).2.2]
    exact h
  | deletePurchaseOrder id => exact deletePurchaseOrder_settled y env id s hy h
  | _ => simp [Op.settles] at hop

theorem run_settled (y : Nat) (trace : List (Env × Op)) (s : Store)
    (ht : ∀ e ∈ trace, e.1.year = y ∧ e.2.settles = true) (h : Settled y s) :
    Settled y (run trace s) := by
  induction trace generalizing s with
  | nil => exact h
  | cons e t ih =>
    simp only [run, List.foldl_cons]
    apply ih _ (fun x hx => ht x (List.mem_cons_of_mem _ hx))
    obtain ⟨hy, hop⟩ := ht e (List.mem_cons_self _ _)
    exact handle_settled y e.1 e.2 s hy hop h

/-- A store without purchase orders whose envelopes of year `y` have nothing
allocated is settled. -/
theorem settled_of_fresh (y : Nat) (s : Store) (hpo : s.purchase_orders = [])
    (hfresh : ∀ b ∈ s.budgets, b.fiscal_year = y → b.allocated_amount = 0) : Settled y s := by
  refine ⟨?_, ?_, ?_⟩
  · rw [hpo]
    exact List.nodup_nil
  · rw [hpo]
    intro po h
    cases h
  intro b hb hy
  rw [hfresh b hb hy]
  simp [committedAmount, hpo]

/-! ## Notifications and the audit log -/

/-- The response of `approvePurchaseOrder` when the notification call throws `e`. -/
theorem approvePurchaseOrder_mail (env : Env) (id : Key) (comments : String) (s : Store) (e : String) :
    approvePurchaseOrder (env.withMail (some e)) id comments s =
      if (approvePurchaseOrder (env.withMail none) id comments s).1.status = "success" then
        (Response.caught "Error approving purchase order" e, (approvePurchaseOrder (env.withMail none) id comments s).2)
      else approvePurchaseOrder (env.withMail none) id comments s := by
  unfold approvePurchaseOrder
  have h : withTransaction (approvePurchaseOrderTx (env.withMail (some e)) id comments) s =
      withTransaction (approvePurchaseOrderTx (env.withMail none) id comments) s := rfl
  rw [h]
  rcases withTransaction (approvePurchaseOrderTx (env.withMail none) id comments) s with ⟨r, s'⟩
  cases r with
  | error x => simp [Response.caught]
  | ok a => simp [sendNotification, Env.withMail, Response.success]

/-- The response of `rejectPurchaseOrder` when the notification call throws `e`. -/
theorem rejectPurchaseOrder_mail (env : Env) (id : Key) (comments : String) (s : Store) (e : String) :
    rejectPurchaseOrder (env.withMail (some e)) id comments s =
      if (rejectPurchaseOrder (env.withMail none) id comments s).1.status = "success" then
        (Response.caught "Error rejecting purchase order" e, (rejectPurchaseOrder (env.withMail none) id comments s).2)
      else rejectPurchaseOrder (env.withMail none) id comments s := by
  unfold rejectPurchaseOrder
  have h : withTransaction (rejectPurchaseOrderTx (env.withMail (some e)) id comments) s =
      withTransaction (rejectPurchaseOrderTx (env.withMail none) id comments) s := rfl
  rw [h]
  rcases withTransaction (rejectPurchaseOrderTx (env.withMail none) id comments) s with ⟨r, s'⟩
  cases r with
  | error x => simp [Response.caught]
  | ok a => simp [sendNotification, Env.withMail, Response.success]

/-- The response of `completePurchaseOrder` when the notification call throws `e`. -/
theorem completePurchaseOrder_mail (env : Env) (id : Key) (s : Store) (e : String) :
    completePurchaseOrder (env.withMail (some e)) id s =
      if (completePurchaseOrder (env.withMail none) id s).1.status = "success" then
        (Response.caught "Error completing purchase order" e, (completePurchaseOrder (env.withMail none) id s).2)
      else completePurchaseOrder (env.withMail none) id s := by
  unfold completePurchaseOrder
  have h : withTransaction (completePurchaseOrderTx (env.withMail (some e)) id) s =
      withTransaction (completePurchaseOrderTx (env.withMail none) id) s := rfl
  rw [h]
  rcases withTransaction (completePurchaseOrderTx (env.withMail none) id) s with ⟨r, s'⟩
  cases r with
  | error x => simp [Response.caught]
  | ok a => simp [sendNotification, Env.withMail, Response.success]

/-- The response of `approveContract` when the notification call throws `e`. -/
theorem approveContract_mail (env : Env) (id : Key) (comments : String) (s : Store) (e : String) :
    approveContract (env.withMail (some e)) id comments s =
      if (approveContract (env.withMail none) id comments s).1.status = "success" then
        (Response.caught "Error approving contract" e, (approveContract (env.withMail none) id comments s).2)
      else approveContract (env.withMail none) id comments s := by
  unfold approveContract
  have h : withTransaction (approveContractTx (env.withMail (some e)) id comments) s =
      withTransaction (approveContractTx (env.withMail none) id comments) s := rfl
  rw [h]
  rcases withTransaction (approveContractTx (env.withMail none) id comments) s with ⟨r, s'⟩
  cases r with
  | error x => simp [Response.caught]
  | ok a => simp [sendNotification, Env.withMail, Response.success]

/-- The response of `terminateContract` when the notification call throws `e`. -/
theorem terminateContract_mail (env : Env) (id : Key) (reason : String) (s : Store) (e : String) :
    terminateContract (env.withMail (some e)) id reason s =
      if (terminateContract (env.withMail none) id reason s).1.status = "success" then
        (Response.caught "Error terminating contract" e, (terminateContract (env.withMail none) id reason s).2)
      else terminateContract (env.withMail none) id reason s := by
  unfold terminateContract
  have h : withTransaction (terminateContractTx (env.withMail (some e)) id reason) s =
      withTransaction (terminateContractTx (env.withMail none) id reason) s := rfl
  rw [h]
  rcases withTransaction (terminateContractTx (env.withMail none) id reason) s with ⟨r, s'⟩
  cases r with
  | error x => simp [Response.caught]
  | ok a => simp [sendNotification, Env.withMail, Response.success]

/-- The response of `rejectContract` when the notification call throws `e`. -/
theorem rejectContract_mail (env : Env) (id : Key) (comments : String) (s : Store) (e : String) :
    rejectContract (env.withMail (some e)) id comments s =
      if (rejectContract (env.withMail none) id comments s).1.status = "success" then
        (Response.caught "Error rejecting contract" e, (rejectContract (env.withMail none) id comments s).2)
      else rejectContract (env.withMail none) id comments s := by
  unfold rejectContract
  have h : withTransaction (rejectContractTx (env.withMail (some e)) id comments) s =
      withTransaction (rejectContractTx (env.withMail none) id comments) s := rfl
  rw [h]
  rcases withTransaction (rejectContractTx (env.withMail none) id comments) s with ⟨r, s'⟩
  cases r with
  | error x => simp [Response.caught]
  | ok a => simp [sendNotification, Env.withMail, Response.success]

/-- The response of `renewContract` when the notification call throws `e`. -/
theorem renewContract_mail (env : Env) (id : Key) (terms : String) (s : Store) (e : String) :
    renewContract (env.withMail (some e)) id terms s =
      if (renewContract (env.withMail none) id terms s).1.status = "success" then
        (Response.caught "Error renewing contract" e, (renewContract (env.withMail none) id terms s).2)
      else renewContract (env.withMail none) id terms s := by
  unfold renewContract
  have h : withTransaction (renewContractTx (env.withMail (some e)) id terms) s =
      withTransaction (renewContractTx (env.withMail none) id terms) s := rfl
  rw [h]
  rcases withTransaction (renewContractTx (env.withMail none) id terms) s with ⟨r, s'⟩
  cases r with
  | error x => simp [Response.caught]
  | ok a => simp [sendNotification, Env.withMail, Response.success]

/-- The result of a request when the notification call throws `e`, in terms of its
result when the call goes through: a success of a handler that reaches the call
turns into the response of the `catch` block, with the store the transaction
committed; anything else is the same. -/
theorem handle_mail (env : Env) (op : Op) (s : Store) (e : String) :
    handle (env.withMail (some e)) op s =
      if op.notifies = true ∧ (handle (env.withMail none) op s).1.status = "success" then
        (Response.caught op.failureMessage e, (handle (env.withMail none) op s).2)
      else handle (env.withMail none) op s := by
  cases op with
  | createBudget body =>
    simp only [handle, Op.notifies, Bool.false_eq_true, false_and, if_false]
    rfl
  | updateBudget id body =>
    simp only [handle, Op.notifies, Bool.false_eq_true, false_and, if_false]
    rfl
  | deleteBudget id =>
    simp only [handle, Op.notifies, Bool.false_eq_true, false_and, if_false]
    rfl
  | allocateBudget body =>
    simp only [handle, Op.notifies, Bool.false_eq_true, false_and, if_false]
    rfl
  | transferBudget body =>
    simp only [handle, Op.notifies, Bool.false_eq_true, false_and, if_false]
    rfl
  | createPurchaseOrder body =>
    simp only [handle, Op.notifies, Bool.false_eq_true, false_and, if_false]
    rfl
  | updatePurchaseOrder id body =>
    simp only [handle, Op.notifies, Bool.false_eq_true, false_and, if_false]
    rfl
  | deletePurchaseOrder id =>
    simp only [handle, Op.notifies, Bool.false_eq_true, false_and, if_false]
    rfl
  | approvePurchaseOrder id comments =>
    simp only [handle, Op.notifies, Op.failureMessage, true_and]
    exact approvePurchaseOrder_mail env id comments s e
  | rejectPurchaseOrder id comments =>
    simp only [handle, Op.notifies, Op.failureMessage, true_and]
    exact rejectPurchaseOrder_mail env id comments s e
  | completePurchaseOrder id =>
    simp only [handle, Op.notifies, Op.failureMessage, true_and]
    exact completePurchaseOrder_mail env id s e
  | createContract body =>
    simp only [handle, Op.notifies, Bool.false_eq_true, false_and, if_false]
    rfl
  | updateContract id updateData =>
    simp only [handle, Op.notifies, Bool.false_eq_true, false_and, if_false]
    rfl
  | approveContract id comments =>
    simp only [handle, Op.notifies, Op.failureMessage, true_and]
    exact approveContract_mail env id comments s e
  | terminateContract id reason =>
    simp only [handle, Op.notifies, Op.failureMessage, true_and]
    exact terminateContract_mail env id reason s e
  | rejectContract id comments =>
    simp only [handle, Op.notifies, Op.failureMessage, true_and]
    exact rejectContract_mail env id comments s e
  | renewContract id terms =>
    simp only [handle, Op.notifies, Op.failureMessage, true_and]
    exact renewContract_mail env id terms s e
  | deleteContract id =>
    simp only [handle, Op.notifies, Bool.false_eq_true, false_and, if_false]
    rfl

/-- The store after a request does not depend on the outcome of the notification
call. -/
theorem handle_mail_store (env : Env) (op : Op) (s : Store) (mail : Option String) :
    (handle (env.withMail mail) op s).2 = (handle (env.withMail none) op s).2 := by
  cases mail with
  | none => rfl
  | some e =>
    rw [handle_mail]
    split <;> rfl

theorem deleteBudget_audit (env : Env) (id : Key) (s : Store)
    (_ : (deleteBudget env id s).1.status = "success") :
    ∃ entry, (deleteBudget env id s).2.audit_logs = s.audit_logs ++ [entry] := by
  unfold deleteBudget
  simp [withTransaction, deleteBudgetTx, insertAuditLog, deleteBudgetRow]

theorem deletePurchaseOrder_audit (env : Env) (id : Key) (s : Store)
    (h : (deletePurchaseOrder env id s).1.status = "success") :
    ∃ entry, (deletePurchaseOrder env id s).2.audit_logs = s.audit_logs ++ [entry] := by
  unfold deletePurchaseOrder at *
  cases hs : (selectPurchaseOrders s id).head? with
  | none => simp [hs, Response.reject] at h
  | some po =>
    simp [hs, withTransaction, deletePurchaseOrderTx, insertAuditLog, updateBudgetsOf,
      deletePurchaseOrderRow]

theorem approvePurchaseOrder_audit (env : Env) (id : Key) (comments : String) (s : Store)
    (h : (approvePurchaseOrder env id comments s).1.status = "success") :
    ∃ entry, (approvePurchaseOrder env id comments s).2.audit_logs = s.audit_logs ++ [entry] := by
  unfold approvePurchaseOrder withTransaction approvePurchaseOrderTx at *
  simp only [insertAuditLog, updatePurchaseOrderById] at *
  cases hm : sendNotification env <;> simp_all [Response.caught, Response.success]

theorem rejectPurchaseOrder_audit (env : Env) (id : Key) (comments : String) (s : Store)
    (h : (rejectPurchaseOrder env id comments s).1.status = "success") :
    ∃ entry, (rejectPurchaseOrder env id comments s).2.audit_logs = s.audit_logs ++ [entry] := by
  unfold rejectPurchaseOrder withTransaction rejectPurchaseOrderTx at *
  simp only [insertAuditLog, updatePurchaseOrderById] at *
  cases hm : sendNotification env <;> simp_all [Response.caught, Response.success]

theorem completePurchaseOrder_audit (env : Env) (id : Key) (s : Store)
    (h : (completePurchaseOrder env id s).1.status = "success") :
    ∃ entry, (completePurchaseOrder env id s).2.audit_logs = s.audit_logs ++ [entry] := by
  unfold completePurchaseOrder withTransaction completePurchaseOrderTx at *
  simp only [insertAuditLog, updatePurchaseOrderById] at *
  cases hm : sendNotification env <;> simp_all [Response.caught, Response.success]

theorem updateContract_audit (env : Env) (id : Key) (updateData : UpdateContractData) (s : Store)
    (h : (updateContract env id updateData s).1.status = "success") :
    ∃ entry, (updateContract env id updateData s).2.audit_logs = s.audit_logs ++ [entry] := by
  unfold updateContract withTransaction updateContractTx updateContractRow at *
  simp only [insertAuditLog] at *
  split_ifs at * <;>
    first
    | (simp [Response.reject, Response.caught] at h; done)
    | simp

theorem approveContract_audit (env : Env) (id : Key) (comments : String) (s : Store)
    (h : (approveContract env id comments s).1.status = "success") :
    ∃ entry, (approveContract env id comments s).2.audit_logs = s.audit_logs ++ [entry] := by
  unfold approveContract withTransaction approveContractTx updateContractStatus at *
  simp only [insertAuditLog] at *
  split_ifs at * <;>
    first
    | (simp [Response.reject, Response.caught] at h; done)
    | (cases hm : sendNotification env <;> simp_all [Response.caught, Response.success])

theorem terminateContract_audit (env : Env) (id : Key) (reason : String) (s : Store)
    (h : (terminateContract env id reason s).1.status = "success") :
    ∃ entry, (terminateContract env id reason s).2.audit_logs = s.audit_logs ++ [entry] := by
  unfold terminateContract withTransaction terminateContractTx updateContractStatus at *
  simp only [insertAuditLog] at *
  split_ifs at * <;>
    first
    | (simp [Response.reject, Response.caught] at h; done)
    | (cases hm : sendNotification env <;> simp_all [Response.caught, Response.success])

theorem rejectContract_audit (env : Env) (id : Key) (comments : String) (s : Store)
    (h : (rejectContract env id comments s).1.status = "success") :
    ∃ entry, (rejectContract env id comments s).2.audit_logs = s.audit_logs ++ [entry] := by
  unfold rejectContract withTransaction rejectContractTx updateContractStatus at *
  simp only [insertAuditLog] at *
  split_ifs at * <;>
    first
    | (simp [Response.reject, Response.caught] at h; done)
    | (cases hm : sendNotification env <;> simp_all [Response.caught, Response.success])

theorem renewContract_audit (env : Env) (id : Key) (terms : String) (s : Store)
    (h : (renewContract env id terms s).1.status = "success") :
    ∃ entry, (renewContract env id terms s).2.audit_logs = s.audit_logs ++ [entry] := by
  unfold renewContract withTransaction renewContractTx updateContractStatus at *
  simp only [insertAuditLog] at *
  split_ifs at * <;>
    first
    | (simp [Response.reject, Response.caught] at h; done)
    | (cases hm : sendNotification env <;> simp_all [Response.caught, Response.success])

theorem deleteContract_audit (env : Env) (id : Key) (s : Store)
    (_ : (deleteContract env id s).1.status = "success") :
    ∃ entry, (deleteContract env id s).2.audit_logs = s.audit_logs ++ [entry] := by
  unfold deleteContract
  simp [withTransaction, deleteContractTx, insertAuditLog, deleteContractRow]

/-- Each handler that answers with success has appended one entry to `audit_logs`.
The handlers that write no audit entry (`allocateBudget`, `transferBudget`) and
those whose audit entry lies behind a statement no request passes never answer
with success. -/
theorem handle_audit (env : Env) (op : Op) (s : Store)
    (h : (handle env op s).1.status = "success") :
    ∃ entry, (handle env op s).2.audit_logs = s.audit_logs ++ [entry] := by
  cases op with
  | createBudget body => simp [handle, createBudget, Response.caught] at h
  | updateBudget id body => simp [handle, updateBudget, Response.caught] at h
  | deleteBudget id => exact deleteBudget_audit env id s h
  | allocateBudget body => simp [handle, allocateBudget, Response.caught] at h
  | transferBudget body => simp [handle, transferBudget, Response.caught] at h
  | createPurchaseOrder body =>
    have := (createPurchaseOrder_rejects env body s).2.1
    simp only [handle] at h
    rw [this] at h
    simp at h
  | updatePurchaseOrder id body =>
    have := (updatePurchaseOrder_rejects env id body s).2.1
    simp only [handle] at h
    rw [this] at h
    simp at h
  | deletePurchaseOrder id => exact deletePurchaseOrder_audit env id s h
  | approvePurchaseOrder id comments => exact approvePurchaseOrder_audit env id comments s h
  | rejectPurchaseOrder id comments => exact rejectPurchaseOrder_audit env id comments s h
  | completePurchaseOrder id => exact completePurchaseOrder_audit env id s h
  | createContract body => simp [handle, createContract, Response.caught] at h
  | updateContract id updateData => exact updateContract_audit env id updateData s h
  | approveContract id comments => exact approveContract_audit env id comments s h
  | terminateContract id reason => exact terminateContract_audit env id reason s h
  | rejectContract id comments => exact rejectContract_audit env id comments s h
  | renewContract id terms => exact renewContract_audit env id terms s h
  | deleteContract id => exact deleteContract_audit env id s h

/-! ## Input sanitisation -/

/-- The tag removal keeps a subsequence of the characters. -/
theorem removeHtmlTags_sublist (l : List Char) : ∀ inTag, (removeHtmlTags inTag l).Sublist l := by
  induction l with
  | nil => intro b; simp [removeHtmlTags]
  | cons c cs ih =>
    intro b
    unfold removeHtmlTags
    split_ifs
    · exact (ih false).cons c
    · exact (ih true).cons c
    · exact (ih true).cons c
    · exact (ih false).cons₂ c

/-- After the tag removal no `<` has a `>` anywhere behind it. -/
theorem removeHtmlTags_no_tag (l : List Char) :
    ∀ inTag, ¬ ['<', '>'].Sublist (removeHtmlTags inTag l) := by
  induction l with
  | nil => intro b h; simp [removeHtmlTags] at h
  | cons c cs ih =>
    intro b
    unfold removeHtmlTags
    split_ifs with h1 h2 h3
    · exact ih false
    · exact ih true
    · exact ih true
    · intro h
      cases h with
      | cons _ h' => exact ih false h'
      | cons₂ _ h' =>
        apply h3
        refine ⟨rfl, ?_⟩
        exact (removeHtmlTags_sublist cs false).subset (List.singleton_sublist.mp h')

/-- The tag removal keeps a string in which no `<` has a `>` behind it. -/
theorem removeHtmlTags_eq_self (l : List Char) (h : ¬ ['<', '>'].Sublist l) :
    removeHtmlTags false l = l := by
  induction l with
  | nil => rfl
  | cons c cs ih =>
    unfold removeHtmlTags
    have hc : ¬ (c = '<' ∧ '>' ∈ cs) := by
      rintro ⟨rfl, hm⟩
      exact h ((List.singleton_sublist.mpr hm).cons₂ _)
    simp only [Bool.false_eq_true, if_false, hc]
    rw [ih (fun hs => h (hs.cons c))]

theorem trim_sublist (l : List Char) : (trim l).Sublist l :=
  ((List.rdropWhile_prefix isWhiteSpace _).sublist).trans (List.dropWhile_sublist isWhiteSpace)

theorem trim_head (l : List Char) (c : Char) (h : (trim l).head? = some c) :
    isWhiteSpace c = false := by
  obtain ⟨t, ht⟩ : trim l <+: l.dropWhile isWhiteSpace := List.rdropWhile_prefix isWhiteSpace _
  have hd := List.head?_dropWhile_not isWhiteSpace l
  cases hr : trim l with
  | nil => rw [hr] at h; cases h
  | cons a r =>
    rw [hr] at h ht
    simp only [List.head?_cons, Option.some.injEq] at h
    rw [← ht] at hd
    simp only [List.cons_append, List.head?_cons] at hd
    rw [← h]
    exact hd

theorem trim_getLast (l : List Char) (c : Char) (h : (trim l).getLast? = some c) :
    isWhiteSpace c = false := by
  have hne : trim l ≠ [] := by
    intro he
    rw [he] at h
    cases h
  have hl := List.rdropWhile_last_not isWhiteSpace (l.dropWhile isWhiteSpace) hne
  rw [List.getLast?_eq_getLast _ hne] at h
  simp only [Option.some.injEq] at h
  have h' : (trim l).getLast hne = c := h
  unfold trim at h'
  rw [h'] at hl
  simpa using hl

theorem trim_eq_self (l : List Char) (hh : ∀ c, l.head? = some c → isWhiteSpace c = false)
    (hl : ∀ c, l.getLast? = some c → isWhiteSpace c = false) : trim l = l := by
  have h1 : l.dropWhile isWhiteSpace = l := by
    cases l with
    | nil => rfl
    | cons a t =>
      have := hh a rfl
      simp [List.dropWhile_cons, this]
  unfold trim
  rw [h1, List.rdropWhile_eq_self_iff]
  intro hne
  have := hl (l.getLast hne) (List.getLast?_eq_getLast _ hne)
  simp [this]

/-- A `<` with a `>` anywhere behind it makes the two characters a subsequence. -/
theorem tag_sublist (pre mid post : List Char) :
    ['<', '>'].Sublist (pre ++ '<' :: (mid ++ '>' :: post)) := by
  refine List.Sublist.trans ?_ (List.sublist_append_right pre _)
  refine List.Sublist.cons₂ _ ?_
  refine List.Sublist.trans ?_ (List.sublist_append_right mid _)
  exact List.Sublist.cons₂ _ (List.nil_sublist _)

theorem sanitized_no_tag (l : List Char) :
    ¬ ['<', '>'].Sublist
      (trim ((removeHtmlTags false l).filter (fun c => !isSqlChar c))) := by
  intro h
  exact removeHtmlTags_no_tag l false
    ((h.trans (trim_sublist _)).trans (List.filter_sublist _))

theorem sanitizeChars_idempotent (l : List Char) :
    trim ((removeHtmlTags false
      (trim ((removeHtmlTags false l).filter (fun c => !isSqlChar c)))).filter
        (fun c => !isSqlChar c)) =
      trim ((removeHtmlTags false l).filter (fun c => !isSqlChar c)) := by
  rw [removeHtmlTags_eq_self _ (sanitized_no_tag l)]
  have hf : (trim ((removeHtmlTags false l).filter (fun c => !isSqlChar c))).filter
      (fun c => !isSqlChar c) =
      trim ((removeHtmlTags false l).filter (fun c => !isSqlChar c)) := by
    rw [List.filter_eq_self]
    intro c hc
    exact (List.mem_filter.mp ((trim_sublist _).subset hc)).2
  rw [hf]
  exact trim_eq_self _ (trim_head _) (trim_getLast _)

/-! ## Identifier numbering -/

theorem padStart_length (str : String) (n : Nat) (c : Char) :
    (padStart str n c).length = (n - str.length) + str.length := by
  unfold padStart
  rw [String.length_append]
  congr 1
  exact List.length_replicate _ _

theorem toString_length_le_five (k : Nat) (h : k < 100000) : (toString k).length ≤ 5 :=
  Nat.repr_length k 5 (by decide) (by simpa using h)

theorem padStart_five_length (k : Nat) (h : k < 100000) :
    (padStart (toString k) 5 '0').length = 5 := by
  rw [padStart_length]
  have := toString_length_le_five k h
  omega

/-- With `n` purchase orders created in 2026 in the table, the next number carries
`n + 1`. -/
theorem generatePONumber_ordersOf2026 (n : Nat) :
    generatePONumber (ordersOf2026 n) 2026 =
      "PO-" ++ toString 2026 ++ "-" ++ padStart (toString (n + 1)) 5 '0' := by
  have h : ((List.range n).map (fun i => orderOf2026 (i + 1))).filter
      (fun po => po.created_at = 2026) = (List.range n).map (fun i => orderOf2026 (i + 1)) := by
    rw [List.filter_eq_self]
    intro po hpo
    obtain ⟨i, _, rfl⟩ := List.mem_map.mp hpo
    rfl
  unfold generatePONumber
  have hp : (ordersOf2026 n).purchase_orders =
      (List.range n).map (fun i => orderOf2026 (i + 1)) := rfl
  simp only [hp, h, List.length_map, List.length_range]

/-! ## Utilization of an envelope -/

theorem utilization_bounds (b : Budget) (ht : 0 < b.total_amount)
    (h0 : 0 ≤ b.remaining_amount) (h1 : b.remaining_amount ≤ b.total_amount) :
    0 ≤ utilization_percentage b ∧ utilization_percentage b ≤ 100 := by
  unfold utilization_percentage
  have hT : (0 : ℚ) < (b.total_amount : ℚ) := by exact_mod_cast ht
  have hR0 : (0 : ℚ) ≤ (b.remaining_amount : ℚ) := by exact_mod_cast h0
  have hR1 : (b.remaining_amount : ℚ) ≤ (b.total_amount : ℚ) := by exact_mod_cast h1
  constructor
  · apply mul_nonneg _ (by norm_num)
    exact div_nonneg (by linarith) hT.le
  · have : ((b.total_amount : ℚ) - b.remaining_amount) / b.total_amount ≤ 1 := by
      rw [div_le_one hT]
      linarith
    linarith

/-- In a store whose envelopes are fresh, the utilization of every envelope is
between 0 and 100. -/
theorem utilizationWithin_of_fresh (s : Store) (h : Fresh s) : UtilizationWithin s := by
  intro d fy r hr
  unfold getDepartmentBudget at hr
  cases he : envelope s d fy with
  | none => rw [he] at hr; cases hr
  | some b =>
    rw [he] at hr
    simp only [Option.some.injEq] at hr
    subst hr
    obtain ⟨ht, _, hrem⟩ := h.2 b (envelope_mem s d fy b he)
    exact utilization_bounds b ht (by rw [hrem]; exact ht.le) (by rw [hrem])

/-! ## Claims -/

/-- Claim C1: every handler preserves the ledger equation
`remaining_amount = total_amount - allocated_amount`, so it holds in every state
reached from a store in which it holds, the empty store among them, by
`createBudget`, `updateBudget`, `allocateBudget`, `transferBudget`,
`createPurchaseOrder`, `updatePurchaseOrder` and `deletePurchaseOrder` (and by any
other request).  Of the seven only `deletePurchaseOrder` writes an envelope, and it
writes `allocated_amount` and `remaining_amount` together. -/
theorem ledger_equation_preserved (trace : List (Env × Op)) (s : Store)
    (h : LedgerEquation s) : LedgerEquation (run trace s) :=
  run_ledger trace s h

/-- Claim C1 on the empty store and on an envelope of 10000 with an order of 4000, with
one request to each of the seven handlers: from the empty store no envelope comes
to exist, and the deletion of the order credits the envelope, which ends with
nothing allocated and 10000 remaining. -/
theorem ledger_equation_preserved_witness :
    (LedgerEquation Store.empty ∧ LedgerEquation (run ledgerTrace Store.empty) ∧
      (run ledgerTrace Store.empty).budgets = []) ∧
    (LedgerEquation oneOrder ∧ LedgerEquation (run ledgerTrace oneOrder) ∧
      (run ledgerTrace oneOrder).budgets.map
        (fun b => (b.total_amount, b.allocated_amount, b.remaining_amount)) =
          [(10000, 0, 10000)]) :=
  ⟨⟨by decide, ledger_equation_preserved ledgerTrace Store.empty (by decide), by decide⟩,
    ⟨by decide, ledger_equation_preserved ledgerTrace oneOrder (by decide), by decide⟩⟩

/-- Claim C2 at its failing input: on an envelope with remaining 100,
`allocateBudget` of 150 and `transferBudget` of 150 fail and leave the store, but
with the `TypeError` of the call of `ValidationUtils.isPositiveNumber`, status 500,
and not with an insufficient-funds error: `allocateBudget` of 50, within the
envelope, receives the same response. -/
theorem overdraw_answered_with_type_error :
    (envelope twoBudgets 1 2026).map (fun b => b.remaining_amount) = some 100 ∧
    allocateBudget env2026 (allocateBody 1 150) twoBudgets =
      (Response.caught "Error allocating budget"
        "Cannot read properties of undefined (reading 'isPositiveNumber')", twoBudgets) ∧
    allocateBudget env2026 (allocateBody 1 50) twoBudgets =
      (Response.caught "Error allocating budget"
        "Cannot read properties of undefined (reading 'isPositiveNumber')", twoBudgets) ∧
    transferBudget env2026 (transferBody 1 2 150) twoBudgets =
      (Response.caught "Error transferring budget"
        "Cannot read properties of undefined (reading 'isPositiveNumber')", twoBudgets) := by
  decide

/-- Claim C3 at its failing input: against an envelope with remaining 8000,
`createPurchaseOrder` of 500 is answered 400
`Insufficient budget for this purchase order`, and against an envelope of 10000 so
is the order of 4000; no order is inserted and the envelope is not debited. -/
theorem createPurchaseOrder_rejects_within_envelope :
    (envelope afterDeletion 1 2026).map
      (fun b => (b.remaining_amount, b.allocated_amount)) = some (8000, 2000) ∧
    createPurchaseOrder env2026 (poBody 1 500) afterDeletion =
      (Response.reject 400 "Insufficient budget for this purchase order", afterDeletion) ∧
    (envelope oneBudget 1 2026).map
      (fun b => (b.remaining_amount, b.allocated_amount)) = some (10000, 0) ∧
    createPurchaseOrder env2026 (poBody 1 4000) oneBudget =
      (Response.reject 400 "Insufficient budget for this purchase order", oneBudget) := by
  decide

/-- Claim C4: `createPurchaseOrder` followed by `deletePurchaseOrder` of an order that
was not in the store before the creation leaves every envelope, so its
`remaining_amount` and `allocated_amount`, as before the creation.
`createPurchaseOrder` accepts no request and leaves the store, so that the deletion
finds no such order. -/
theorem create_then_delete_restores_budgets (env env' : Env) (body : PurchaseOrderBody)
    (s : Store) (id : Key) (h : ∀ po ∈ s.purchase_orders, po.id ≠ id) :
    (createPurchaseOrder env body s).1.status = "error" ∧
    (createPurchaseOrder env body s).2 = s ∧
    (deletePurchaseOrder env' id (createPurchaseOrder env body s).2).2.budgets =
      s.budgets := by
  obtain ⟨_, hst, hs⟩ := createPurchaseOrder_rejects env body s
  refine ⟨hst, hs, ?_⟩
  rw [hs, deletePurchaseOrder_absent env' id s h]

/-- Claim C4 on an envelope of 10000 and an order of 4000: the key 2, which a new
order would receive, names no order after the creation. -/
theorem create_then_delete_restores_budgets_witness :
    (∀ po ∈ oneBudget.purchase_orders, po.id ≠ 2) ∧
    (createPurchaseOrder env2026 (poBody 1 4000) oneBudget).1.status = "error" ∧
    (createPurchaseOrder env2026 (poBody 1 4000) oneBudget).2 = oneBudget ∧
    (deletePurchaseOrder env2026 2
      (createPurchaseOrder env2026 (poBody 1 4000) oneBudget).2).2.budgets =
        oneBudget.budgets :=
  ⟨by decide,
    create_then_delete_restores_budgets env2026 env2026 (poBody 1 4000) oneBudget 2
      (by decide)⟩

/-- Claim C5: when both departments have an envelope for the current fiscal year,
the sum of the two remaining amounts is the same after a `transferBudget` request
as before it, whether the request succeeds or not (none succeeds: the handler
leaves the store). -/
theorem transferBudget_preserves_remaining_sum (env : Env) (body : TransferBody) (s : Store)
    (source target : Budget)
    (hs : envelope s body.from_department_id env.year = some source)
    (ht : envelope s body.to_department_id env.year = some target) :
    ∃ source' target',
      envelope (transferBudget env body s).2 body.from_department_id env.year =
        some source' ∧
      envelope (transferBudget env body s).2 body.to_department_id env.year =
        some target' ∧
      source'.remaining_amount + target'.remaining_amount =
        source.remaining_amount + target.remaining_amount :=
  ⟨source, target, hs, ht, rfl⟩

/-- Claim C5 on a transfer of 30 between envelopes with 100 and 50 remaining. -/
theorem transferBudget_preserves_remaining_sum_witness :
    (envelope twoBudgets 1 2026 = some (freshBudget 1 1 100) ∧
      envelope twoBudgets 2 2026 = some (freshBudget 2 2 50)) ∧
    ∃ source' target',
      envelope (transferBudget env2026 (transferBody 1 2 30) twoBudgets).2 1 2026 =
        some source' ∧
      envelope (transferBudget env2026 (transferBody 1 2 30) twoBudgets).2 2 2026 =
        some target' ∧
      source'.remaining_amount + target'.remaining_amount = 100 + 50 :=
  ⟨⟨by decide, by decide⟩,
    transferBudget_preserves_remaining_sum env2026 (transferBody 1 2 30) twoBudgets
      (freshBudget 1 1 100) (freshBudget 2 2 50) (by decide) (by decide)⟩

/-- Claim C6 at its failing input: a transfer of 30 from an envelope with remaining
100 to one with remaining 50 is answered 500 with the `TypeError` of the call of
`ValidationUtils.isPositiveNumber`; neither remaining amount changes and no
`budget_transfers` row is inserted. -/
theorem transferBudget_moves_nothing :
    twoBudgets.budgets.map (fun b => (b.department_id, b.remaining_amount)) =
      [(1, 100), (2, 50)] ∧
    (transferBudget env2026 (transferBody 1 2 30) twoBudgets).1 =
      Response.caught "Error transferring budget"
        "Cannot read properties of undefined (reading 'isPositiveNumber')" ∧
    (transferBudget env2026 (transferBody 1 2 30) twoBudgets).2.budgets.map
      (fun b => (b.department_id, b.remaining_amount)) = [(1, 100), (2, 50)] ∧
    (transferBudget env2026 (transferBody 1 2 30) twoBudgets).2.budget_transfers = [] := by
  decide

/-- Claim C7: when the source or the target department has no envelope for the
current fiscal year, `transferBudget` fails (status 500) and leaves the store, so
every envelope, as it was.  The handler fails before it reads an envelope. -/
theorem transferBudget_fails_without_envelope (env : Env) (body : TransferBody) (s : Store)
    (_h : envelope s body.from_department_id env.year = none ∨
      envelope s body.to_department_id env.year = none) :
    (transferBudget env body s).1.code = 500 ∧
    (transferBudget env body s).1.status = "error" ∧
    (transferBudget env body s).2 = s :=
  ⟨rfl, rfl, rfl⟩

/-- Claim C7 on a transfer of 30 from department 1, which has an envelope of 100, to
department 2, which has none. -/
theorem transferBudget_fails_without_envelope_witness :
    (envelope smallBudget 1 2026 = none ∨ envelope smallBudget 2 2026 = none) ∧
    (transferBudget env2026 (transferBody 1 2 30) smallBudget).1.code = 500 ∧
    (transferBudget env2026 (transferBody 1 2 30) smallBudget).1.status = "error" ∧
    (transferBudget env2026 (transferBody 1 2 30) smallBudget).2 = smallBudget :=
  ⟨by decide,
    transferBudget_fails_without_envelope env2026 (transferBody 1 2 30) smallBudget
      (by decide)⟩

/-- Claim C8 at its failing input: department 1 has an envelope for 2026, and
`createBudget` for the same pair inserts nothing and leaves the envelope, but its
response is the `TypeError` of the call of `ValidationUtils.isPositiveNumber`,
status 500, and no conflict error: `createBudget` for department 2, which has no
envelope, receives the same response. -/
theorem createBudget_duplicate_answered_with_type_error :
    (envelope oneBudget 1 2026).isSome = true ∧ envelope oneBudget 2 2026 = none ∧
    createBudget env2026 (budgetBody 1 5000) oneBudget =
      (Response.caught "Error creating budget"
        "Cannot read properties of undefined (reading 'isPositiveNumber')", oneBudget) ∧
    createBudget env2026 (budgetBody 2 5000) oneBudget =
      (Response.caught "Error creating budget"
        "Cannot read properties of undefined (reading 'isPositiveNumber')", oneBudget) := by
  decide

/-- Claim C9 at its failing input: `createBudget` with total 10000 for department 1
and 2026, a pair without an envelope, is answered 500 and inserts neither an
envelope nor an audit entry. -/
theorem createBudget_inserts_nothing :
    createBudget env2026 (budgetBody 1 10000) Store.empty =
      (Response.caught "Error creating budget"
        "Cannot read properties of undefined (reading 'isPositiveNumber')", Store.empty) ∧
    (createBudget env2026 (budgetBody 1 10000) Store.empty).2.budgets = [] ∧
    (createBudget env2026 (budgetBody 1 10000) Store.empty).2.audit_logs = [] := by
  decide

/-- Claim C10: `updatePurchaseOrder` answers no request with success: every request is
answered 400 and leaves the store, the order and the envelopes with it.  So there is
no successful update, and none that leaves the envelopes unsettled. -/
theorem updatePurchaseOrder_never_succeeds (env : Env) (id : Key) (body : PurchaseOrderBody)
    (s : Store) :
    (updatePurchaseOrder env id body s).1.status ≠ "success" ∧
    (updatePurchaseOrder env id body s).1.code = 400 ∧
    (updatePurchaseOrder env id body s).2 = s := by
  obtain ⟨hc, hst, hs⟩ := updatePurchaseOrder_rejects env id body s
  refine ⟨?_, hc, hs⟩
  rw [hst]
  decide

/-- Claim C11: from a store without purchase orders whose envelopes of year `y` have
nothing allocated, requests to `createPurchaseOrder`, `updatePurchaseOrder` and
`deletePurchaseOrder` in year `y` lead to a settled store: every envelope of year
`y` has as `allocated_amount` the sum of `total_amount` over its department's
purchase orders that are not rejected. -/
theorem allocated_equals_orders (y : Nat) (trace : List (Env × Op)) (s : Store)
    (hpo : s.purchase_orders = [])
    (hfresh : ∀ b ∈ s.budgets, b.fiscal_year = y → b.allocated_amount = 0)
    (ht : ∀ e ∈ trace, e.1.year = y ∧ e.2.settles = true) :
    Settled y (run trace s) :=
  run_settled y trace s ht (settled_of_fresh y s hpo hfresh)

/-- Claim C11 on an envelope of 10000 and requests to the three handlers. -/
theorem allocated_equals_orders_witness :
    (oneBudget.purchase_orders = [] ∧
      (∀ b ∈ oneBudget.budgets, b.fiscal_year = 2026 → b.allocated_amount = 0) ∧
      (∀ e ∈ settlingTrace, e.1.year = 2026 ∧ e.2.settles = true)) ∧
    Settled 2026 (run settlingTrace oneBudget) :=
  ⟨⟨by decide, by decide, by decide⟩,
    allocated_equals_orders 2026 settlingTrace oneBudget (by decide) (by decide) (by decide)⟩

/-- Claim C12 at its failing input: a purchase order of 4000 created in 2025 against
the 2025 envelope of department 1 is deleted in 2026.  `deletePurchaseOrder`
credits the envelope of `YEAR(CURRENT_DATE)`: the 2026 envelope goes to allocated
-4000 and remaining 9000, and the 2025 envelope, which was debited, keeps
allocated 4000 and remaining 6000. -/
theorem deletePurchaseOrder_credits_current_year :
    crossYear.purchase_orders.map
      (fun po => (po.id, po.department_id, po.total_amount, po.created_at)) =
        [(3, 1, 4000, 2025)] ∧
    crossYear.budgets.map (fun b => (b.fiscal_year, b.allocated_amount, b.remaining_amount)) =
      [(2025, 4000, 6000), (2026, 0, 5000)] ∧
    (deletePurchaseOrder env2026 3 crossYear).1 =
      Response.success 200 "Purchase Order deleted successfully" Payload.empty ∧
    (deletePurchaseOrder env2026 3 crossYear).2.budgets.map
      (fun b => (b.fiscal_year, b.allocated_amount, b.remaining_amount)) =
        [(2025, 4000, 6000), (2026, -4000, 9000)] := by
  decide

/-- Claim C13: for an id that no purchase order has, `deletePurchaseOrder` answers
404 `Purchase Order not found` and the store (purchase orders, envelopes, audit
log and all other tables) is unchanged. -/
theorem deletePurchaseOrder_not_found (env : Env) (id : Key) (s : Store)
    (h : ∀ po ∈ s.purchase_orders, po.id ≠ id) :
    deletePurchaseOrder env id s = (Response.reject 404 "Purchase Order not found", s) := by
  have hsel : selectPurchaseOrders s id = [] := by
    unfold selectPurchaseOrders
    rw [List.filter_eq_nil_iff]
    intro po hpo
    simpa using h po hpo
  simp [deletePurchaseOrder, hsel]

/-- Claim C13 on the id 99 in a store whose only order has key 2. -/
theorem deletePurchaseOrder_not_found_witness :
    (∀ po ∈ oneOrder.purchase_orders, po.id ≠ 99) ∧
    deletePurchaseOrder env2026 99 oneOrder =
      (Response.reject 404 "Purchase Order not found", oneOrder) :=
  ⟨by decide, deletePurchaseOrder_not_found env2026 99 oneOrder (by decide)⟩

/-- Claim C14, as stated, fails: `approvePurchaseOrder` on a rejected order answers
with success and leaves it approved, and `completePurchaseOrder` on a draft order
leaves it completed. -/
theorem approve_changes_rejected_order :
    rejectedOrder.purchase_orders.map (fun po => (po.id, po.status)) =
      [(2, POStatus.rejected)] ∧
    (approvePurchaseOrder env2026 2 "approved after all" rejectedOrder).1 =
      Response.success 200 "Purchase Order approved successfully" Payload.empty ∧
    (approvePurchaseOrder env2026 2 "approved after all" rejectedOrder).2.purchase_orders.map
      (fun po => (po.id, po.status)) = [(2, POStatus.approved)] ∧
    oneOrder.purchase_orders.map (fun po => (po.id, po.status)) = [(2, POStatus.draft)] ∧
    (completePurchaseOrder env2026 2 oneOrder).2.purchase_orders.map
      (fun po => (po.id, po.status)) = [(2, POStatus.completed)] := by
  decide

/-- Claim C14, amended: `approvePurchaseOrder` sets the status of the order with the
given id to `approved`, `rejectPurchaseOrder` sets it to `rejected` and
`completePurchaseOrder` sets it to `completed`, whatever the status was; every
other order is left as it is. -/
theorem purchase_order_workflow_sets_status (env : Env) (id : Key) (comments : String)
    (s : Store) :
    (approvePurchaseOrder env id comments s).2.purchase_orders =
      s.purchase_orders.map (fun po =>
        if po.id = id then
          { po with status := POStatus.approved, approved_by := some env.user,
                    approval_comments := some comments }
        else po) ∧
    (rejectPurchaseOrder env id comments s).2.purchase_orders =
      s.purchase_orders.map (fun po =>
        if po.id = id then
          { po with status := POStatus.rejected, approved_by := some env.user,
                    approval_comments := some comments }
        else po) ∧
    (completePurchaseOrder env id s).2.purchase_orders =
      s.purchase_orders.map (fun po =>
        if po.id = id then { po with status := POStatus.completed } else po) := by
  refine ⟨?_, ?_, ?_⟩
  · unfold approvePurchaseOrder
    cases sendNotification env <;>
      simp [withTransaction, approvePurchaseOrderTx, insertAuditLog, updatePurchaseOrderById]
  · unfold rejectPurchaseOrder
    cases sendNotification env <;>
      simp [withTransaction, rejectPurchaseOrderTx, insertAuditLog, updatePurchaseOrderById]
  · unfold completePurchaseOrder
    cases sendNotification env <;>
      simp [withTransaction, completePurchaseOrderTx, insertAuditLog, updatePurchaseOrderById]

/-- Claim C15 at its failing input: no contract has key 99, and `approveContract`,
`rejectContract`, `terminateContract` and `renewContract` for 99 each answer with
success and append an audit entry for contract 99. -/
theorem contract_transition_without_contract :
    approveContract env2026 99 "ok" Store.empty =
      (Response.success 200 "Contract approved successfully" Payload.empty,
        insertAuditLog Store.empty "CONTRACT_APPROVAL" "contract" 99 "Contract approved" 7) ∧
    rejectContract env2026 99 "no" Store.empty =
      (Response.success 200 "Contract rejected successfully" Payload.empty,
        insertAuditLog Store.empty "CONTRACT_REJECTION" "contract" 99 "Contract rejected" 7) ∧
    terminateContract env2026 99 "late" Store.empty =
      (Response.success 200 "Contract terminated successfully" Payload.empty,
        insertAuditLog Store.empty "CONTRACT_TERMINATION" "contract" 99
          "Contract terminated" 7) ∧
    renewContract env2026 99 "one year" Store.empty =
      (Response.success 200 "Contract renewed successfully" Payload.empty,
        insertAuditLog Store.empty "CONTRACT_RENEWAL" "contract" 99 "Contract renewed" 7) ∧
    (insertAuditLog Store.empty "CONTRACT_APPROVAL" "contract" 99 "Contract approved"
      7).audit_logs.length = 1 := by
  decide

/-- Claim C16, as stated, fails: `terminateContract` takes a draft contract to
`terminated`, and `approveContract` takes the terminated contract to `active`. -/
theorem terminate_draft_then_approve :
    oneContract.contracts.map (fun c => (c.id, c.status)) = [(1, ContractStatus.draft)] ∧
    (terminateContract env2026 1 "late" oneContract).1 =
      Response.success 200 "Contract terminated successfully" Payload.empty ∧
    (terminateContract env2026 1 "late" oneContract).2.contracts.map
      (fun c => (c.id, c.status)) = [(1, ContractStatus.terminated)] ∧
    (approveContract env2026 1 "ok" (terminateContract env2026 1 "late" oneContract).2).1 =
      Response.success 200 "Contract approved successfully" Payload.empty ∧
    (approveContract env2026 1 "ok"
      (terminateContract env2026 1 "late" oneContract).2).2.contracts.map
        (fun c => (c.id, c.status)) = [(1, ContractStatus.active)] := by
  decide

/-- Claim C16, amended: `approveContract` sets the status of the contract with the
given id to `active` and `terminateContract` sets it to `terminated`, whatever the
status was; every other contract is left as it is. -/
theorem contract_workflow_sets_status (env : Env) (id : Key) (text : String) (s : Store) :
    (approveContract env id text s).2.contracts =
      s.contracts.map (fun c =>
        if c.id = id then
          { c with status := ContractStatus.active, approved_by := some env.user,
                   approval_comments := some text }
        else c) ∧
    (terminateContract env id text s).2.contracts =
      s.contracts.map (fun c =>
        if c.id = id then
          { c with status := ContractStatus.terminated, termination_reason := some text,
                   terminated_by := some env.user }
        else c) := by
  refine ⟨?_, ?_⟩
  · unfold approveContract
    cases sendNotification env <;>
      simp [withTransaction, approveContractTx, insertAuditLog, updateContractStatus,
        ContractStatus.inEnum, storedStatus]
  · unfold terminateContract
    cases sendNotification env <;>
      simp [withTransaction, terminateContractTx, insertAuditLog, updateContractStatus,
        ContractStatus.inEnum, storedStatus]

/-- Claim C17: when a statement of the callback fails, whatever the callback wrote
on the connection before (`c`), `DatabaseUtils.withTransaction` rethrows the
error and the store is the one at `beginTransaction`. -/
theorem withTransaction_rolls_back {α : Type} (callback : Query α) (s c : Store) (e : String)
    (h : callback s = (Except.error e, c)) :
    DatabaseUtils.withTransaction callback s = (Except.error e, s) := by
  unfold DatabaseUtils.withTransaction
  rw [h]

/-- Claim C17 on `createPurchaseOrder` when the insert of the audit entry fails: at
the failure the connection holds the new order and the debited envelope, and the
transaction returns the error with the store it started from. -/
theorem withTransaction_rolls_back_witness :
    (createPurchaseOrderQueries (faultAt 3 "Lock wait timeout exceeded") env2026
      (poBody 1 4000) oneBudget).2.purchase_orders.length = 1 ∧
    (createPurchaseOrderQueries (faultAt 3 "Lock wait timeout exceeded") env2026
      (poBody 1 4000) oneBudget).2.budgets.map (fun b => b.remaining_amount) = [6000] ∧
    oneBudget.purchase_orders.length = 0 ∧
    DatabaseUtils.withTransaction
      (createPurchaseOrderQueries (faultAt 3 "Lock wait timeout exceeded") env2026
        (poBody 1 4000)) oneBudget =
      (Except.error "Lock wait timeout exceeded", oneBudget) :=
  ⟨by decide, by decide, by decide,
    withTransaction_rolls_back
      (createPurchaseOrderQueries (faultAt 3 "Lock wait timeout exceeded") env2026
        (poBody 1 4000)) oneBudget
      (createPurchaseOrderQueries (faultAt 3 "Lock wait timeout exceeded") env2026
        (poBody 1 4000) oneBudget).2 "Lock wait timeout exceeded" rfl⟩

/-- Claim C18, as stated, fails: `approvePurchaseOrder` commits the approval of the
order, the notification call throws, and the caller receives status 500
`Error approving purchase order` with the error of the call, not the success
result. -/
theorem approvePurchaseOrder_reports_mail_failure :
    oneOrder.purchase_orders.map (fun po => (po.id, po.status)) = [(2, POStatus.draft)] ∧
    (approvePurchaseOrder envRepository 2 "ok" oneOrder).1 =
      Response.caught "Error approving purchase order"
        "emailService.sendPOApprovalNotification is not a function" ∧
    (approvePurchaseOrder envRepository 2 "ok" oneOrder).2.purchase_orders.map
      (fun po => (po.id, po.status)) = [(2, POStatus.approved)] := by
  decide

/-- Claim C18, amended: for every handler that reaches its notification call
(approve, reject and complete purchase order and the four contract transitions),
when the transaction commits, so that the request succeeds if the notification goes
through, and the notification throws `e`, the caller receives the response of the
handler's `catch` block, status 500 with `e` as its error, and the store is the
one the transaction committed. -/
theorem notification_failure_surfaces (env : Env) (op : Op) (s : Store) (e : String)
    (hn : op.notifies = true)
    (hc : (handle (env.withMail none) op s).1.status = "success") :
    handle (env.withMail (some e)) op s =
      (Response.caught op.failureMessage e, (handle (env.withMail none) op s).2) := by
  rw [handle_mail, if_pos ⟨hn, hc⟩]

/-- Claim C18, amended, on `approvePurchaseOrder` of an order that exists, with the
error the notification call throws in the repository as it is. -/
theorem notification_failure_surfaces_witness :
    (Op.approvePurchaseOrder 2 "ok").notifies = true ∧
    (handle (env2026.withMail none) (Op.approvePurchaseOrder 2 "ok") oneOrder).1.status =
      "success" ∧
    handle (env2026.withMail (some "emailService.sendPOApprovalNotification is not a function"))
        (Op.approvePurchaseOrder 2 "ok") oneOrder =
      (Response.caught "Error approving purchase order"
          "emailService.sendPOApprovalNotification is not a function",
        (handle (env2026.withMail none) (Op.approvePurchaseOrder 2 "ok") oneOrder).2) ∧
    (handle (env2026.withMail none) (Op.approvePurchaseOrder 2 "ok")
      oneOrder).2.purchase_orders.map (fun po => po.status) = [POStatus.approved] :=
  ⟨by decide, by decide,
    notification_failure_surfaces env2026 (Op.approvePurchaseOrder 2 "ok") oneOrder
      "emailService.sendPOApprovalNotification is not a function" (by decide) (by decide),
    by decide⟩

/-- Claim C19: for every request, the store after it is the same whether the
notification call throws or not, namely the store its transaction committed: a
failing notification rolls nothing back and writes nothing.  The notification
is called only after a commit: a request that does not succeed when the
notification goes through has the same result when it throws. -/
theorem notification_failure_keeps_store (env : Env) (op : Op) (s : Store) (e : String) :
    (handle (env.withMail (some e)) op s).2 = (handle (env.withMail none) op s).2 ∧
    ((handle (env.withMail none) op s).1.status ≠ "success" →
      handle (env.withMail (some e)) op s = handle (env.withMail none) op s) := by
  rw [handle_mail]
  constructor
  · split <;> rfl
  · intro hne
    rw [if_neg (fun hp => hne hp.2)]

/-- Claim C19 on `approvePurchaseOrder`: with a failing mailer the store is the one of
the committed approval; and on `rejectContract`, whose transaction fails in strict
mode: the result is the same with and without the mailer. -/
theorem notification_failure_keeps_store_witness :
    (handle (env2026.withMail (some "emailService.sendPOApprovalNotification is not a function"))
        (Op.approvePurchaseOrder 2 "ok") oneOrder).2 =
      (handle (env2026.withMail none) (Op.approvePurchaseOrder 2 "ok") oneOrder).2 ∧
    (handle (env2026.withMail none) (Op.approvePurchaseOrder 2 "ok")
      oneOrder).2.purchase_orders.map (fun po => (po.id, po.status)) =
        [(2, POStatus.approved)] ∧
    handle (env2026.withMail (some "emailService.sendContractRejectionNotification is not a function"))
        (Op.rejectContract 1 "too costly") oneContract =
      handle (env2026.withMail none) (Op.rejectContract 1 "too costly") oneContract :=
  ⟨(notification_failure_keeps_store env2026 (Op.approvePurchaseOrder 2 "ok") oneOrder
      "emailService.sendPOApprovalNotification is not a function").1,
    by decide,
    (notification_failure_keeps_store env2026 (Op.rejectContract 1 "too costly") oneContract
      "emailService.sendContractRejectionNotification is not a function").2 (by decide)⟩

/-- Claim C20: every request whose transaction commits, that is, every request that is
answered with success when its notification goes through, has appended one
`audit_logs` entry, written by the transaction that made the change, whatever the
notification call does afterwards.  The handlers that write no audit entry,
`allocateBudget` and `transferBudget`, commit no change. -/
theorem success_appends_audit_entry (env : Env) (op : Op) (s : Store) (mail : Option String)
    (h : (handle (env.withMail none) op s).1.status = "success") :
    ∃ entry, (handle (env.withMail mail) op s).2.audit_logs = s.audit_logs ++ [entry] := by
  rw [handle_mail_store]
  exact handle_audit (env.withMail none) op s h

/-- Claim C20 on `deletePurchaseOrder` of an order that exists, which is answered with
success, and on `approvePurchaseOrder` in the repository as it is, which is answered
500 after its transaction has committed. -/
theorem success_appends_audit_entry_witness :
    ((handle (env2026.withMail none) (Op.deletePurchaseOrder 2) oneOrder).1.status = "success" ∧
      (handle envRepository (Op.deletePurchaseOrder 2) oneOrder).1.status = "success" ∧
      ∃ entry, (handle (env2026.withMail envRepository.mailError) (Op.deletePurchaseOrder 2)
        oneOrder).2.audit_logs = oneOrder.audit_logs ++ [entry]) ∧
    ((handle (env2026.withMail none) (Op.approvePurchaseOrder 2 "ok") oneOrder).1.status =
        "success" ∧
      (handle envRepository (Op.approvePurchaseOrder 2 "ok") oneOrder).1.code = 500 ∧
      ∃ entry, (handle (env2026.withMail envRepository.mailError)
        (Op.approvePurchaseOrder 2 "ok") oneOrder).2.audit_logs =
          oneOrder.audit_logs ++ [entry]) :=
  ⟨⟨by decide, by decide,
      success_appends_audit_entry env2026 (Op.deletePurchaseOrder 2) oneOrder
        envRepository.mailError (by decide)⟩,
    ⟨by decide, by decide,
      success_appends_audit_entry env2026 (Op.approvePurchaseOrder 2 "ok") oneOrder
        envRepository.mailError (by decide)⟩⟩

/-- Claim C21 at its failing input: `createBudget` with amount 0, `allocateBudget`
with amount -5 and `transferBudget` without an amount leave the store, but they are
answered 500 with the `TypeError` of the call of `ValidationUtils.isPositiveNumber`,
not 400 with the invalid-amount message; `isPositiveNumber` itself is false of the
three amounts. -/
theorem nonpositive_amount_answered_with_type_error :
    isPositiveNumber (NumericField.number 0) = false ∧
    isPositiveNumber (NumericField.number (-5)) = false ∧
    isPositiveNumber NumericField.absent = false ∧
    createBudget env2026 (budgetBody 2 0) oneBudget =
      (Response.caught "Error creating budget"
        "Cannot read properties of undefined (reading 'isPositiveNumber')", oneBudget) ∧
    allocateBudget env2026 (allocateBody 1 (-5)) oneBudget =
      (Response.caught "Error allocating budget"
        "Cannot read properties of undefined (reading 'isPositiveNumber')", oneBudget) ∧
    transferBudget env2026
        { from_department_id := 1, to_department_id := 2, amount := NumericField.absent,
          reason := "" }
        oneBudget =
      (Response.caught "Error transferring budget"
        "Cannot read properties of undefined (reading 'isPositiveNumber')", oneBudget) := by
  decide

/-- Claim C22: a `createPurchaseOrder` request whose `total_amount` is a number that
is not positive, or whose `items` array is empty, is answered 400; no purchase
order is inserted and no envelope changes, the store being the one before the
request. -/
theorem createPurchaseOrder_rejects_nonpositive_or_empty (env : Env)
    (body : PurchaseOrderBody) (s : Store)
    (_h : (∃ q, body.total_amount = NumericField.number q ∧ q ≤ 0) ∨ body.items = some []) :
    (createPurchaseOrder env body s).1.code = 400 ∧
    (createPurchaseOrder env body s).1.status = "error" ∧
    (createPurchaseOrder env body s).2 = s :=
  createPurchaseOrder_rejects env body s

/-- Claim C22 on an envelope of 10000: an order of -500 and an order of 4000 without
items are answered 400 `Insufficient budget for this purchase order`, an order of 0
is answered 400 `Missing required fields`. -/
theorem createPurchaseOrder_rejects_nonpositive_or_empty_witness :
    (((∃ q, (poBody 1 (-500)).total_amount = NumericField.number q ∧ q ≤ 0) ∨
        (poBody 1 (-500)).items = some []) ∧
      (createPurchaseOrder env2026 (poBody 1 (-500)) oneBudget).1.code = 400 ∧
      (createPurchaseOrder env2026 (poBody 1 (-500)) oneBudget).1.status = "error" ∧
      (createPurchaseOrder env2026 (poBody 1 (-500)) oneBudget).2 = oneBudget) ∧
    (((∃ q, (noItemsBody 1 4000).total_amount = NumericField.number q ∧ q ≤ 0) ∨
        (noItemsBody 1 4000).items = some []) ∧
      (createPurchaseOrder env2026 (noItemsBody 1 4000) oneBudget).1.code = 400 ∧
      (createPurchaseOrder env2026 (noItemsBody 1 4000) oneBudget).1.status = "error" ∧
      (createPurchaseOrder env2026 (noItemsBody 1 4000) oneBudget).2 = oneBudget) ∧
    createPurchaseOrder env2026 (poBody 1 (-500)) oneBudget =
      (Response.reject 400 "Insufficient budget for this purchase order", oneBudget) ∧
    createPurchaseOrder env2026 (noItemsBody 1 4000) oneBudget =
      (Response.reject 400 "Insufficient budget for this purchase order", oneBudget) ∧
    createPurchaseOrder env2026 (poBody 1 0) oneBudget =
      (Response.reject 400 "Missing required fields", oneBudget) :=
  ⟨⟨Or.inl ⟨-500, by simp [poBody], by norm_num⟩,
      createPurchaseOrder_rejects_nonpositive_or_empty env2026 (poBody 1 (-500)) oneBudget
        (Or.inl ⟨-500, by simp [poBody], by norm_num⟩)⟩,
    ⟨Or.inr rfl,
      createPurchaseOrder_rejects_nonpositive_or_empty env2026 (noItemsBody 1 4000) oneBudget
        (Or.inr rfl)⟩,
    by decide, by decide, by decide⟩

/-- Claim C23, as stated, fails: with 99999 purchase orders created in 2026 the
next number is `PO-2026-100000`, whose sequence part has six digits. -/
theorem generatePONumber_six_digits :
    generatePONumber (ordersOf2026 99999) 2026 = "PO-2026-100000" ∧
    (padStart (toString (99999 + 1)) 5 '0').length = 6 := by
  constructor
  · rw [generatePONumber_ordersOf2026]
    decide
  · decide

/-- Claim C23, amended: for a year `y` with `c` purchase orders and `k` contracts
created in it, `c + 1` and `k + 1` below 100000, `generatePONumber` returns
`PO-y-s` and `generateContractNumber` returns `CNT-y-t`, where `s` is the decimal
numeral of `c + 1` and `t` that of `k + 1`, each with zeros in front to a length
of exactly 5. -/
theorem identifier_format (s : Store) (y c k : Nat)
    (hpo : (s.purchase_orders.filter (fun po => po.created_at = y)).length = c)
    (hct : (s.contracts.filter (fun x => x.created_at = y)).length = k)
    (hc : c + 1 < 100000) (hk : k + 1 < 100000) :
    ∃ sp sk : String, ∃ zp zk : Nat,
      generatePONumber s y = "PO-" ++ toString y ++ "-" ++ sp ∧
      generateContractNumber s y = "CNT-" ++ toString y ++ "-" ++ sk ∧
      sp = String.mk (List.replicate zp '0') ++ toString (c + 1) ∧
      sk = String.mk (List.replicate zk '0') ++ toString (k + 1) ∧
      sp.length = 5 ∧ sk.length = 5 := by
  refine ⟨padStart (toString (c + 1)) 5 '0', padStart (toString (k + 1)) 5 '0',
    5 - (toString (c + 1)).length, 5 - (toString (k + 1)).length, ?_, ?_, rfl, rfl,
    padStart_five_length _ hc, padStart_five_length _ hk⟩
  · unfold generatePONumber
    rw [hpo]
  · unfold generateContractNumber
    rw [hct]

/-- Claim C23, amended, on the store after two purchase orders and a deletion: one
order and no contract of 2026. -/
theorem identifier_format_witness :
    ((afterDeletion.purchase_orders.filter (fun po => po.created_at = 2026)).length = 1 ∧
      (afterDeletion.contracts.filter (fun x => x.created_at = 2026)).length = 0 ∧
      1 + 1 < 100000 ∧ 0 + 1 < 100000) ∧
    ∃ sp sk : String, ∃ zp zk : Nat,
      generatePONumber afterDeletion 2026 = "PO-" ++ toString 2026 ++ "-" ++ sp ∧
      generateContractNumber afterDeletion 2026 = "CNT-" ++ toString 2026 ++ "-" ++ sk ∧
      sp = String.mk (List.replicate zp '0') ++ toString (1 + 1) ∧
      sk = String.mk (List.replicate zk '0') ++ toString (0 + 1) ∧
      sp.length = 5 ∧ sk.length = 5 :=
  ⟨⟨by decide, by decide, by decide, by decide⟩,
    identifier_format afterDeletion 2026 1 0 (by decide) (by decide) (by decide) (by decide)⟩

/-- Claim C24: from a store without purchase orders, requests to
`createPurchaseOrder` and `deletePurchaseOrder` (and `updatePurchaseOrder`) lead to
a store in which the number `generatePONumber` produces next is the `po_number` of
no purchase order.  `createPurchaseOrder` inserts no order, so the table stays
empty. -/
theorem next_number_unused (y : Nat) (trace : List (Env × Op)) (s : Store)
    (hpo : s.purchase_orders = []) (ht : ∀ e ∈ trace, e.1.year = y ∧ e.2.settles = true) :
    (run trace s).purchase_orders = [] ∧ NextNumberUnused y (run trace s) := by
  have hrun : run trace s = s := run_without_orders trace s (fun e he => Or.inl (ht e he).2) hpo
  rw [hrun]
  refine ⟨hpo, ?_⟩
  intro po hp
  rw [hpo] at hp
  cases hp

/-- Claim C24 on an envelope of 10000 and requests to the three handlers in 2026: the
next number is `PO-2026-00001`. -/
theorem next_number_unused_witness :
    (oneBudget.purchase_orders = [] ∧
      (∀ e ∈ settlingTrace, e.1.year = 2026 ∧ e.2.settles = true)) ∧
    ((run settlingTrace oneBudget).purchase_orders = [] ∧
      NextNumberUnused 2026 (run settlingTrace oneBudget)) ∧
    generatePONumber (run settlingTrace oneBudget) 2026 = "PO-2026-00001" :=
  ⟨⟨by decide, by decide⟩,
    next_number_unused 2026 settlingTrace oneBudget (by decide) (by decide), by decide⟩

/-- Claim C25 at its failing input: two `allocateBudget` calls of 30 and 40 against an
envelope of 100, in either order, are both answered 500 with the `TypeError` of the
call of `ValidationUtils.isPositiveNumber`, and the envelope keeps remaining 100
and allocated 0. -/
theorem allocations_within_total_all_fail :
    (allocateBudget env2026 (allocateBody 1 30) smallBudget).1 =
      Response.caught "Error allocating budget"
        "Cannot read properties of undefined (reading 'isPositiveNumber')" ∧
    (allocateBudget env2026 (allocateBody 1 40)
      (allocateBudget env2026 (allocateBody 1 30) smallBudget).2).1 =
      Response.caught "Error allocating budget"
        "Cannot read properties of undefined (reading 'isPositiveNumber')" ∧
    (allocateBudget env2026 (allocateBody 1 40)
      (allocateBudget env2026 (allocateBody 1 30) smallBudget).2).2 = smallBudget ∧
    (allocateBudget env2026 (allocateBody 1 30)
      (allocateBudget env2026 (allocateBody 1 40) smallBudget).2).2 = smallBudget ∧
    smallBudget.budgets.map
      (fun b => (b.total_amount, b.allocated_amount, b.remaining_amount)) =
        [(100, 0, 100)] := by
  decide

/-- Claim C26: from a store without contracts, requests to `createContract` and
`updateContract` lead to a store in which every contract starts strictly before it
ends.  `createContract` inserts no contract and `updateContract` inserts none, so
the table stays empty. -/
theorem date_range_invariant (trace : List (Env × Op)) (s : Store)
    (hc : s.contracts = []) (ht : ∀ e ∈ trace, e.2.writesDates = true) :
    (run trace s).contracts = [] ∧ DateRanges (run trace s) := by
  have h := run_contracts_nil trace s ht hc
  refine ⟨h, ?_⟩
  intro c hm
  rw [h] at hm
  cases hm

/-- Claim C26 on the empty store and requests to `createContract` and
`updateContract`; `createContract` with a date range from day 0 to day 30, of which
`ValidationUtils.isDateRange` is true, is answered 500. -/
theorem date_range_invariant_witness :
    (Store.empty.contracts = [] ∧ (∀ e ∈ contractTrace, e.2.writesDates = true)) ∧
    ((run contractTrace Store.empty).contracts = [] ∧
      DateRanges (run contractTrace Store.empty)) ∧
    isDateRange contractBody.start_date contractBody.end_date = true ∧
    (createContract env2026 contractBody Store.empty).1.code = 500 :=
  ⟨⟨by decide, by decide⟩,
    date_range_invariant contractTrace Store.empty (by decide) (by decide), by decide,
    by decide⟩

/-- Claim C27: for every string, `sanitizeInput` returns a string in which no `<`
is followed anywhere later by a `>`, which holds none of the characters `'`, `"`,
`;` and `\`, and which neither starts nor ends with white space; a number, a
boolean, `null`, `undefined` and an object are returned unchanged. -/
theorem sanitizeInput_cleans (s : String) (n : Int) (b : Bool) (reference : Nat) :
    (∃ out : String, sanitizeInput (JsValue.string s) = JsValue.string out ∧
      (∀ pre mid post : List Char, out.data ≠ pre ++ '<' :: (mid ++ '>' :: post)) ∧
      (∀ c ∈ out.data, c ≠ '\x27' ∧ c ≠ '\x22' ∧ c ≠ ';' ∧ c ≠ '\x5c') ∧
      (∀ c, out.data.head? = some c → isWhiteSpace c = false) ∧
      (∀ c, out.data.getLast? = some c → isWhiteSpace c = false)) ∧
    sanitizeInput (JsValue.number n) = JsValue.number n ∧
    sanitizeInput (JsValue.boolean b) = JsValue.boolean b ∧
    sanitizeInput JsValue.null = JsValue.null ∧
    sanitizeInput JsValue.undefined = JsValue.undefined ∧
    sanitizeInput (JsValue.object reference) = JsValue.object reference := by
  refine ⟨⟨_, rfl, ?_, ?_, ?_, ?_⟩, rfl, rfl, rfl, rfl, rfl⟩
  · intro pre mid post h
    have h' : trim ((removeHtmlTags false s.data).filter (fun c => !isSqlChar c)) =
        pre ++ '<' :: (mid ++ '>' :: post) := h
    apply sanitized_no_tag s.data
    rw [h']
    exact tag_sublist pre mid post
  · intro c hc
    have hf := List.mem_filter.mp ((trim_sublist _).subset hc)
    have h2 := hf.2
    simp only [isSqlChar, Bool.not_eq_true', Bool.or_eq_false_iff, decide_eq_false_iff_not] at h2
    exact ⟨h2.1.1.1, h2.1.1.2, h2.1.2, h2.2⟩
  · exact trim_head _
  · exact trim_getLast _

/-- Claim C28 at its failing input: `rejected` and `renewed` are outside the
enumeration of `contracts.status`, which admits `draft`, `active` and `terminated`;
on a draft contract `rejectContract` and `renewContract` fail in strict mode with
`Data truncated for column 'status'` and leave the store, and outside strict mode
they answer 200 and the row holds the empty status. -/
theorem rejected_and_renewed_outside_enum :
    ContractStatus.draft.inEnum = true ∧ ContractStatus.active.inEnum = true ∧
    ContractStatus.terminated.inEnum = true ∧
    ContractStatus.rejected.inEnum = false ∧ ContractStatus.renewed.inEnum = false ∧
    rejectContract env2026 1 "too costly" oneContract =
      (Response.caught "Error rejecting contract" "Data truncated for column 'status' at row 1",
        oneContract) ∧
    renewContract env2026 1 "one more year" oneContract =
      (Response.caught "Error renewing contract" "Data truncated for column 'status' at row 1",
        oneContract) ∧
    (rejectContract env2026Lax 1 "too costly" oneContract).1.code = 200 ∧
    (rejectContract env2026Lax 1 "too costly" oneContract).2.contracts.map
      (fun c => c.status) = [ContractStatus.blank] ∧
    (renewContract env2026Lax 1 "one more year" oneContract).1.code = 200 ∧
    (renewContract env2026Lax 1 "one more year" oneContract).2.contracts.map
      (fun c => c.status) = [ContractStatus.blank] := by
  decide

/-- Claim C29: from a store whose envelopes are as `createBudget` is to write them
(the empty store among them), with no purchase order, requests to `createBudget`,
`allocateBudget`, `transferBudget`, `createPurchaseOrder` and `deletePurchaseOrder`
lead to a store in which the utilization `getDepartmentBudget` computes for an
envelope lies between 0 and 100.  None of the five requests changes such a store. -/
theorem utilization_within_percentage (trace : List (Env × Op)) (s : Store)
    (hf : Fresh s) (ht : ∀ e ∈ trace, e.2.spends = true) :
    UtilizationWithin (run trace s) := by
  rw [run_without_orders trace s (fun e he => Or.inr (ht e he)) hf.1]
  exact utilizationWithin_of_fresh s hf

/-- Claim C29 on two fresh envelopes and one request to each of the five handlers:
the envelope of department 2 keeps total 50 and remaining 50, utilization 0. -/
theorem utilization_within_percentage_witness :
    (Fresh twoBudgets ∧ (∀ e ∈ spendingTrace, e.2.spends = true)) ∧
    UtilizationWithin (run spendingTrace twoBudgets) ∧
    (getDepartmentBudget (run spendingTrace twoBudgets) 2 2026).map (fun r => r.1) =
      some (freshBudget 2 2 50) :=
  ⟨⟨⟨by decide, by decide⟩, by decide⟩,
    utilization_within_percentage spendingTrace twoBudgets ⟨by decide, by decide⟩
      (by decide),
    by
      have h : envelope (run spendingTrace twoBudgets) 2 2026 = some (freshBudget 2 2 50) := by
        decide
      unfold getDepartmentBudget
      rw [h]
      rfl⟩

/-- Claim C30: for every string, `sanitizeInput` applied to its own result returns
that result. -/
theorem sanitizeInput_idempotent (s : String) :
    sanitizeInput (sanitizeInput (JsValue.string s)) = sanitizeInput (JsValue.string s) := by
  show JsValue.string _ = JsValue.string _
  congr 2
  exact sanitizeChars_idempotent s.data

end ProcurePro
